import Mathlib

/-!
Verification of the lamarrs repository: a shallow embedding of the wire
vocabulary (lamarrs-utils), the server service actors, the client handler,
the sequencer, and the embedded client WebSocket framing, together with
theorems settling the frozen claims about them.

Strings of the source (heapless bounded strings) are modelled as lists of
bytes, the capacity being a bound on the byte length, exactly as heapless
enforces it.  Byte streams are lists of natural numbers; where the Rust u8
type guarantees a bound, the decoders check it explicitly.
-/

namespace Lamarrs

/-- A heapless bounded string of capacity n: a byte list of length at most n
(lamarrs-utils uses heapless String with byte capacities 50, 4 and 100). -/
abbrev HString (n : Nat) : Type := { l : List Nat // l.length ≤ n }

instance (n : Nat) : DecidableEq (HString n) :=
  fun a b => decidable_of_iff (a.val = b.val) Subtype.ext_iff.symm

/-- heapless String try_from: accept the bytes when they fit the capacity,
fail otherwise (no truncation). -/
def HString.tryFrom (n : Nat) (l : List Nat) : Option (HString n) :=
  if h : l.length ≤ n then some ⟨l, h⟩ else none

/-- RelativeLocation from lamarrs-utils/src/lib.rs. -/
inductive RelativeLocation
  | Left
  | Center
  | Right
deriving DecidableEq, Repr

/-- A 128-bit UUID, as the uuid crate stores it: its sixteen bytes. -/
abbrev UuidBytes : Type := { l : List Nat // l.length = 16 ∧ ∀ b ∈ l, b < 256 }

instance : DecidableEq UuidBytes :=
  fun a b => decidable_of_iff (a.val = b.val) Subtype.ext_iff.symm

structure Uuid where
  bytes : UuidBytes
deriving DecidableEq

/-- ClientIdAndLocation from lamarrs-utils/src/lib.rs. -/
structure ClientIdAndLocation where
  id : Uuid
  location : Option RelativeLocation
deriving DecidableEq

/-- Service from lamarrs-utils/src/lib.rs (this revision has no Midi entry). -/
inductive Service
  | Subtitle
  | Colour
  | AudioPlayer
deriving DecidableEq, Repr

/-- ColourRgb from lamarrs-utils/src/lib.rs; the fields are u8. -/
structure ColourRgb where
  r : Fin 256
  g : Fin 256
  b : Fin 256
deriving DecidableEq

/-- Subtitles from lamarrs-utils/src/lib.rs: a heapless String of capacity 50. -/
structure Subtitles where
  subtitles : HString 50
deriving DecidableEq

/-- AudioFile from lamarrs-utils/src/lib.rs: name capacity 50, extension 4. -/
structure AudioFile where
  file_name : HString 50
  file_extension : HString 4
deriving DecidableEq

/-- ErrorDescription from lamarrs-utils/src/lib.rs: capacity 100. -/
structure ErrorDescription where
  error_descr : HString 100
deriving DecidableEq

/-- Action from lamarrs-utils/src/action_messages.rs (this revision has the
three variants; MIDI is commented out there). -/
inductive Action
  | ShowNewSubtitles (s : Subtitles)
  | ChangeColour (c : ColourRgb)
  | PlayAudio (a : AudioFile)
deriving DecidableEq

/-- Event from lamarrs-utils/src/action_messages.rs. -/
inductive Event
  | Register (c : ClientIdAndLocation)
  | SuscribeToService (s : Service) (c : ClientIdAndLocation)
  | UnsubscribeFromService (s : Service) (c : ClientIdAndLocation)
  | UpdateLocation (c : ClientIdAndLocation)
  | PerformAction (a : Action)
deriving DecidableEq

/-- AckResult from lamarrs-utils/src/exchange_messages.rs. -/
inductive AckResult
  | Success
  | UpdatedSubscription
  | UpdatedLocation
deriving DecidableEq, Repr

/-- NackResult from lamarrs-utils/src/exchange_messages.rs. -/
inductive NackResult
  | AlreadySubscribed
  | NotSubscribed
  | Failed
deriving DecidableEq, Repr

/-- ExchangeMessage from lamarrs-utils/src/exchange_messages.rs. -/
inductive ExchangeMessage
  | Ack (a : AckResult)
  | Nack (n : NackResult)
  | Request (e : Event)
  | Scene (e : Event)
  | Error (e : ErrorDescription)
  | NextScene
  | RetriggerScene
  | Heartbeat
  | HeartbeatAck
deriving DecidableEq

/-!
Binary encoding (postcard, as used by to_allocvec and from_bytes in the
server and the embedded client): enum tags are LEB128 varints, u8 is one
byte, Option is one byte 0 or 1, strings and byte arrays are a varint
length followed by the bytes, struct fields follow in declaration order.
-/

/-- LEB128 varint encoding of a natural number (postcard integer/tag form). -/
def encVarint (n : Nat) : List Nat :=
  if n < 128 then [n] else (n % 128 + 128) :: encVarint (n / 128)
decreasing_by exact Nat.div_lt_self (by omega) (by omega)

/-- LEB128 varint decoding; fails on an empty or truncated stream. -/
def readVarint : List Nat → Option (Nat × List Nat)
  | [] => none
  | b :: rest =>
    if b < 128 then some (b, rest)
    else
      match readVarint rest with
      | some (n, rest2) => some (n * 128 + (b - 128), rest2)
      | none => none

theorem readVarint_encVarint (n : Nat) : ∀ rest, readVarint (encVarint n ++ rest) = some (n, rest) := by
  induction n using Nat.strong_induction_on with
  | _ n ih =>
    intro rest
    rw [encVarint]
    by_cases h : n < 128
    · simp [h, readVarint]
    · have hdiv : n / 128 < n := Nat.div_lt_self (by omega) (by omega)
      simp only [h, if_false, List.cons_append, readVarint]
      rw [ih (n / 128) hdiv rest]
      simp only [show ¬(n % 128 + 128 < 128) by omega, if_false]
      show some (n / 128 * 128 + (n % 128 + 128 - 128), rest) = some (n, rest)
      have hn : n / 128 * 128 + (n % 128 + 128 - 128) = n := by omega
      rw [hn]

/-- Read one byte from the stream. -/
def readByte : List Nat → Option (Nat × List Nat)
  | [] => none
  | b :: rest => some (b, rest)

/-- Read exactly n bytes from the stream. -/
def readBytesN : Nat → List Nat → Option (List Nat × List Nat)
  | 0, s => some ([], s)
  | _ + 1, [] => none
  | n + 1, b :: s =>
    match readBytesN n s with
    | some (l, rest) => some (b :: l, rest)
    | none => none

theorem readBytesN_append (l : List Nat) : ∀ rest, readBytesN l.length (l ++ rest) = some (l, rest) := by
  induction l with
  | nil => intro rest; rfl
  | cons b t ih => intro rest; simp [readBytesN, ih rest]

/-- postcard u8: a single byte. -/
def encB_u8 (x : Fin 256) : List Nat := [x.val]

/-- postcard u8 decoding; the bound check models the u8 type of the stream. -/
def decB_u8 (s : List Nat) : Option (Fin 256 × List Nat) :=
  match readByte s with
  | some (b, rest) => if h : b < 256 then some (⟨b, h⟩, rest) else none
  | none => none

theorem decB_u8_enc (x : Fin 256) (rest : List Nat) :
    decB_u8 (encB_u8 x ++ rest) = some (x, rest) := by
  simp [encB_u8, decB_u8, readByte, x.isLt]

/-- postcard Option: byte 0 for None, byte 1 then the value for Some. -/
def encB_opt {α : Type} (f : α → List Nat) : Option α → List Nat
  | none => [0]
  | some x => 1 :: f x

def decB_opt {α : Type} (g : List Nat → Option (α × List Nat)) (s : List Nat) :
    Option (Option α × List Nat) :=
  match s with
  | 0 :: rest => some (none, rest)
  | 1 :: rest =>
    match g rest with
    | some (x, rest2) => some (some x, rest2)
    | none => none
  | _ => none

theorem decB_opt_enc {α : Type} (f : α → List Nat) (g : List Nat → Option (α × List Nat))
    (hfg : ∀ x rest, g (f x ++ rest) = some (x, rest)) (o : Option α) (rest : List Nat) :
    decB_opt g (encB_opt f o ++ rest) = some (o, rest) := by
  cases o with
  | none => rfl
  | some x => simp [encB_opt, decB_opt, hfg x rest]

/-- postcard bounded string: varint byte length, then the bytes (heapless
try_from rejects lengths over the capacity on decode). -/
def encB_hstr {n : Nat} (x : HString n) : List Nat :=
  encVarint x.val.length ++ x.val

def decB_hstr (n : Nat) (s : List Nat) : Option (HString n × List Nat) :=
  match readVarint s with
  | some (len, rest) =>
    match readBytesN len rest with
    | some (bytes, rest2) =>
      match HString.tryFrom n bytes with
      | some h => some (h, rest2)
      | none => none
    | none => none
  | none => none

theorem decB_hstr_enc {n : Nat} (x : HString n) (rest : List Nat) :
    decB_hstr n (encB_hstr x ++ rest) = some (x, rest) := by
  simp [encB_hstr, decB_hstr, List.append_assoc, readVarint_encVarint,
    readBytesN_append, HString.tryFrom, x.property]

/-- When the byte length on the wire exceeds the capacity, the decode of the
bounded string fails (heapless try_from), instead of truncating. -/
theorem decB_hstr_over (n : Nat) (l : List Nat) (rest : List Nat) (hover : n < l.length) :
    decB_hstr n (encVarint l.length ++ l ++ rest) = none := by
  simp [decB_hstr, List.append_assoc, readVarint_encVarint, readBytesN_append,
    HString.tryFrom, Nat.not_le.mpr hover]

/-- postcard Uuid: serialize_bytes of the sixteen bytes (varint length 16 then
the bytes); decode requires the length to be exactly 16. -/
def encB_uuid (u : Uuid) : List Nat :=
  encVarint u.bytes.val.length ++ u.bytes.val

def decB_uuid (s : List Nat) : Option (Uuid × List Nat) :=
  match readVarint s with
  | some (len, rest) =>
    match readBytesN len rest with
    | some (bytes, rest2) =>
      if h : bytes.length = 16 ∧ ∀ b ∈ bytes, b < 256 then some (⟨⟨bytes, h⟩⟩, rest2) else none
    | none => none
  | none => none

theorem decB_uuid_enc (u : Uuid) (rest : List Nat) :
    decB_uuid (encB_uuid u ++ rest) = some (u, rest) := by
  simp only [encB_uuid, decB_uuid, List.append_assoc, readVarint_encVarint,
    readBytesN_append]
  rw [dif_pos u.bytes.property]

/-- postcard RelativeLocation: a varint tag in declaration order. -/
def encB_loc : RelativeLocation → List Nat
  | .Left => encVarint 0
  | .Center => encVarint 1
  | .Right => encVarint 2

def decB_loc (s : List Nat) : Option (RelativeLocation × List Nat) :=
  match readVarint s with
  | some (d, rest) =>
    if d = 0 then some (.Left, rest)
    else if d = 1 then some (.Center, rest)
    else if d = 2 then some (.Right, rest)
    else none
  | none => none

theorem decB_loc_enc (x : RelativeLocation) (rest : List Nat) :
    decB_loc (encB_loc x ++ rest) = some (x, rest) := by
  cases x <;> simp [encB_loc, decB_loc, readVarint_encVarint]

/-- postcard Service: a varint tag in declaration order. -/
def encB_service : Service → List Nat
  | .Subtitle => encVarint 0
  | .Colour => encVarint 1
  | .AudioPlayer => encVarint 2

def decB_service (s : List Nat) : Option (Service × List Nat) :=
  match readVarint s with
  | some (d, rest) =>
    if d = 0 then some (.Subtitle, rest)
    else if d = 1 then some (.Colour, rest)
    else if d = 2 then some (.AudioPlayer, rest)
    else none
  | none => none

theorem decB_service_enc (x : Service) (rest : List Nat) :
    decB_service (encB_service x ++ rest) = some (x, rest) := by
  cases x <;> simp [encB_service, decB_service, readVarint_encVarint]

/-- postcard ClientIdAndLocation: fields id then location in order. -/
def encB_cil (c : ClientIdAndLocation) : List Nat :=
  encB_uuid c.id ++ encB_opt encB_loc c.location

def decB_cil (s : List Nat) : Option (ClientIdAndLocation × List Nat) :=
  match decB_uuid s with
  | some (u, rest) =>
    match decB_opt decB_loc rest with
    | some (loc, rest2) => some (⟨u, loc⟩, rest2)
    | none => none
  | none => none

theorem decB_cil_enc (c : ClientIdAndLocation) (rest : List Nat) :
    decB_cil (encB_cil c ++ rest) = some (c, rest) := by
  obtain ⟨u, loc⟩ := c
  simp [encB_cil, decB_cil, List.append_assoc, decB_uuid_enc,
    decB_opt_enc encB_loc decB_loc decB_loc_enc]

/-- postcard ColourRgb: the three u8 fields in order. -/
def encB_rgb (c : ColourRgb) : List Nat :=
  encB_u8 c.r ++ encB_u8 c.g ++ encB_u8 c.b

def decB_rgb (s : List Nat) : Option (ColourRgb × List Nat) :=
  match decB_u8 s with
  | some (r, s1) =>
    match decB_u8 s1 with
    | some (g, s2) =>
      match decB_u8 s2 with
      | some (b, s3) => some (⟨r, g, b⟩, s3)
      | none => none
    | none => none
  | none => none

theorem decB_rgb_enc (c : ColourRgb) (rest : List Nat) :
    decB_rgb (encB_rgb c ++ rest) = some (c, rest) := by
  obtain ⟨r, g, b⟩ := c
  simp [encB_rgb, decB_rgb, List.append_assoc, decB_u8_enc]

/-- postcard AudioFile: fields file_name then file_extension. -/
def encB_audiofile (a : AudioFile) : List Nat :=
  encB_hstr a.file_name ++ encB_hstr a.file_extension

def decB_audiofile (s : List Nat) : Option (AudioFile × List Nat) :=
  match decB_hstr 50 s with
  | some (fn, s1) =>
    match decB_hstr 4 s1 with
    | some (fe, s2) => some (⟨fn, fe⟩, s2)
    | none => none
  | none => none

theorem decB_audiofile_enc (a : AudioFile) (rest : List Nat) :
    decB_audiofile (encB_audiofile a ++ rest) = some (a, rest) := by
  obtain ⟨fn, fe⟩ := a
  simp [encB_audiofile, decB_audiofile, List.append_assoc, decB_hstr_enc]

/-- postcard Action: varint tag in declaration order, then the payload. -/
def encB_action : Action → List Nat
  | .ShowNewSubtitles s => encVarint 0 ++ encB_hstr s.subtitles
  | .ChangeColour c => encVarint 1 ++ encB_rgb c
  | .PlayAudio a => encVarint 2 ++ encB_audiofile a

def decB_action (s : List Nat) : Option (Action × List Nat) :=
  match readVarint s with
  | some (d, rest) =>
    if d = 0 then
      match decB_hstr 50 rest with
      | some (x, rest2) => some (.ShowNewSubtitles ⟨x⟩, rest2)
      | none => none
    else if d = 1 then
      match decB_rgb rest with
      | some (x, rest2) => some (.ChangeColour x, rest2)
      | none => none
    else if d = 2 then
      match decB_audiofile rest with
      | some (x, rest2) => some (.PlayAudio x, rest2)
      | none => none
    else none
  | none => none

theorem decB_action_enc (a : Action) (rest : List Nat) :
    decB_action (encB_action a ++ rest) = some (a, rest) := by
  cases a with
  | ShowNewSubtitles s =>
    obtain ⟨x⟩ := s
    simp [encB_action, decB_action, List.append_assoc, readVarint_encVarint, decB_hstr_enc]
  | ChangeColour c =>
    simp [encB_action, decB_action, List.append_assoc, readVarint_encVarint, decB_rgb_enc]
  | PlayAudio a =>
    simp [encB_action, decB_action, List.append_assoc, readVarint_encVarint, decB_audiofile_enc]

/-- postcard Event: varint tag in declaration order, then the payload. -/
def encB_event : Event → List Nat
  | .Register c => encVarint 0 ++ encB_cil c
  | .SuscribeToService s c => encVarint 1 ++ encB_service s ++ encB_cil c
  | .UnsubscribeFromService s c => encVarint 2 ++ encB_service s ++ encB_cil c
  | .UpdateLocation c => encVarint 3 ++ encB_cil c
  | .PerformAction a => encVarint 4 ++ encB_action a

def decB_event (s : List Nat) : Option (Event × List Nat) :=
  match readVarint s with
  | some (d, rest) =>
    if d = 0 then
      match decB_cil rest with
      | some (c, rest2) => some (.Register c, rest2)
      | none => none
    else if d = 1 then
      match decB_service rest with
      | some (sv, rest2) =>
        match decB_cil rest2 with
        | some (c, rest3) => some (.SuscribeToService sv c, rest3)
        | none => none
      | none => none
    else if d = 2 then
      match decB_service rest with
      | some (sv, rest2) =>
        match decB_cil rest2 with
        | some (c, rest3) => some (.UnsubscribeFromService sv c, rest3)
        | none => none
      | none => none
    else if d = 3 then
      match decB_cil rest with
      | some (c, rest2) => some (.UpdateLocation c, rest2)
      | none => none
    else if d = 4 then
      match decB_action rest with
      | some (a, rest2) => some (.PerformAction a, rest2)
      | none => none
    else none
  | none => none

theorem decB_event_enc (e : Event) (rest : List Nat) :
    decB_event (encB_event e ++ rest) = some (e, rest) := by
  cases e <;>
    simp [encB_event, decB_event, List.append_assoc, readVarint_encVarint,
      decB_cil_enc, decB_service_enc, decB_action_enc]

/-- postcard AckResult and NackResult: varint tags in declaration order. -/
def encB_ack : AckResult → List Nat
  | .Success => encVarint 0
  | .UpdatedSubscription => encVarint 1
  | .UpdatedLocation => encVarint 2

def decB_ack (s : List Nat) : Option (AckResult × List Nat) :=
  match readVarint s with
  | some (d, rest) =>
    if d = 0 then some (.Success, rest)
    else if d = 1 then some (.UpdatedSubscription, rest)
    else if d = 2 then some (.UpdatedLocation, rest)
    else none
  | none => none

theorem decB_ack_enc (x : AckResult) (rest : List Nat) :
    decB_ack (encB_ack x ++ rest) = some (x, rest) := by
  cases x <;> simp [encB_ack, decB_ack, readVarint_encVarint]

def encB_nack : NackResult → List Nat
  | .AlreadySubscribed => encVarint 0
  | .NotSubscribed => encVarint 1
  | .Failed => encVarint 2

def decB_nack (s : List Nat) : Option (NackResult × List Nat) :=
  match readVarint s with
  | some (d, rest) =>
    if d = 0 then some (.AlreadySubscribed, rest)
    else if d = 1 then some (.NotSubscribed, rest)
    else if d = 2 then some (.Failed, rest)
    else none
  | none => none

theorem decB_nack_enc (x : NackResult) (rest : List Nat) :
    decB_nack (encB_nack x ++ rest) = some (x, rest) := by
  cases x <;> simp [encB_nack, decB_nack, readVarint_encVarint]

/-- postcard ExchangeMessage: varint tag in declaration order, then the
payload (the binary wire format of the repository). -/
def encB_msg : ExchangeMessage → List Nat
  | .Ack a => encVarint 0 ++ encB_ack a
  | .Nack n => encVarint 1 ++ encB_nack n
  | .Request e => encVarint 2 ++ encB_event e
  | .Scene e => encVarint 3 ++ encB_event e
  | .Error e => encVarint 4 ++ encB_hstr e.error_descr
  | .NextScene => encVarint 5
  | .RetriggerScene => encVarint 6
  | .Heartbeat => encVarint 7
  | .HeartbeatAck => encVarint 8

def decB_msg (s : List Nat) : Option (ExchangeMessage × List Nat) :=
  match readVarint s with
  | some (d, rest) =>
    if d = 0 then
      match decB_ack rest with
      | some (a, rest2) => some (.Ack a, rest2)
      | none => none
    else if d = 1 then
      match decB_nack rest with
      | some (n, rest2) => some (.Nack n, rest2)
      | none => none
    else if d = 2 then
      match decB_event rest with
      | some (e, rest2) => some (.Request e, rest2)
      | none => none
    else if d = 3 then
      match decB_event rest with
      | some (e, rest2) => some (.Scene e, rest2)
      | none => none
    else if d = 4 then
      match decB_hstr 100 rest with
      | some (x, rest2) => some (.Error ⟨x⟩, rest2)
      | none => none
    else if d = 5 then some (.NextScene, rest)
    else if d = 6 then some (.RetriggerScene, rest)
    else if d = 7 then some (.Heartbeat, rest)
    else if d = 8 then some (.HeartbeatAck, rest)
    else none
  | none => none

theorem decB_msg_enc (m : ExchangeMessage) (rest : List Nat) :
    decB_msg (encB_msg m ++ rest) = some (m, rest) := by
  cases m with
  | Error e =>
    obtain ⟨x⟩ := e
    simp [encB_msg, decB_msg, List.append_assoc, readVarint_encVarint, decB_hstr_enc]
  | _ =>
    simp [encB_msg, decB_msg, List.append_assoc, readVarint_encVarint,
      decB_ack_enc, decB_nack_enc, decB_event_enc]

/-!
Text encoding: the JSON wire format produced by serde_json::to_string and
read back by serde_json::from_str, modelled at the level of JSON values
(the serde data model): externally tagged enums, unit variants as bare
strings, struct fields as objects, Option as null-or-value.  The character
stream layer of serde_json is an external collaborator of the repository.
-/

/-- A JSON value.  Strings are byte lists (UTF-8), numbers are the
non-negative integers used by this schema. -/
inductive Json
  | null
  | str (s : List Nat)
  | num (n : Nat)
  | arr (xs : List Json)
  | obj (fields : List (List Nat × Json))

/-- The bytes of an ASCII string literal (JSON keys and variant names). -/
def strBytes (s : String) : List Nat := s.data.map Char.toNat

/-- Look a field up in a JSON object, as serde finds struct fields by name. -/
def jlookup (k : List Nat) : List (List Nat × Json) → Option Json
  | [] => none
  | (k2, v) :: rest => if k2 = k then some v else jlookup k rest

/-- Lowercase hex digit of a value below 16, as the uuid crate formats. -/
def toHexDigit (d : Nat) : Nat := if d < 10 then 48 + d else 87 + d

/-- Read one hex digit (the uuid parser accepts both cases). -/
def fromHexDigit (c : Nat) : Option Nat :=
  if 48 ≤ c ∧ c ≤ 57 then some (c - 48)
  else if 97 ≤ c ∧ c ≤ 102 then some (c - 87)
  else if 65 ≤ c ∧ c ≤ 70 then some (c - 55)
  else none

theorem fromHexDigit_toHexDigit (d : Nat) (hd : d < 16) :
    fromHexDigit (toHexDigit d) = some d := by
  interval_cases d <;> rfl

/-- Two lowercase hex digits per byte. -/
def bytesToHex : List Nat → List Nat
  | [] => []
  | b :: t => toHexDigit (b / 16) :: toHexDigit (b % 16) :: bytesToHex t

/-- Read n bytes given as hex digit pairs. -/
def readHexPairs : Nat → List Nat → Option (List Nat × List Nat)
  | 0, s => some ([], s)
  | n + 1, c1 :: c2 :: s =>
    match fromHexDigit c1, fromHexDigit c2 with
    | some hi, some lo =>
      match readHexPairs n s with
      | some (bs, rest) => some ((hi * 16 + lo) :: bs, rest)
      | none => none
    | _, _ => none
  | _ + 1, _ => none

theorem readHexPairs_append (l : List Nat) (hb : ∀ b ∈ l, b < 256) :
    ∀ rest, readHexPairs l.length (bytesToHex l ++ rest) = some (l, rest) := by
  induction l with
  | nil => intro rest; rfl
  | cons b t ih =>
    intro rest
    have hblt : b < 256 := hb b (by simp)
    have h1 : b / 16 < 16 := by omega
    have h2 : b % 16 < 16 := by omega
    simp only [List.length_cons, bytesToHex, List.cons_append, readHexPairs,
      fromHexDigit_toHexDigit _ h1, fromHexDigit_toHexDigit _ h2, List.append_eq,
      ih (fun x hx => hb x (by simp [hx])) rest]
    have : b / 16 * 16 + b % 16 = b := by omega
    rw [this]

/-- Expect one given byte at the head of the stream. -/
def expectB (b : Nat) : List Nat → Option (List Nat)
  | c :: rest => if c = b then some rest else none
  | [] => none

/-- The hyphenated lowercase hex form the uuid crate prints for JSON:
8-4-4-4-12 hex digits over the sixteen bytes. -/
def encHyphenated (l : List Nat) : List Nat :=
  bytesToHex (l.take 4) ++ 45 :: (bytesToHex ((l.drop 4).take 2) ++ 45 ::
    (bytesToHex ((l.drop 6).take 2) ++ 45 :: (bytesToHex ((l.drop 8).take 2) ++ 45 ::
      bytesToHex (l.drop 10))))

/-- Parse the hyphenated UUID text form back into sixteen bytes. -/
def parseHyphenated (s : List Nat) : Option (List Nat) :=
  match readHexPairs 4 s with
  | some (g1, s1) =>
    match expectB 45 s1 with
    | some s2 =>
      match readHexPairs 2 s2 with
      | some (g2, s3) =>
        match expectB 45 s3 with
        | some s4 =>
          match readHexPairs 2 s4 with
          | some (g3, s5) =>
            match expectB 45 s5 with
            | some s6 =>
              match readHexPairs 2 s6 with
              | some (g4, s7) =>
                match expectB 45 s7 with
                | some s8 =>
                  match readHexPairs 6 s8 with
                  | some (g5, s9) =>
                    if s9 = [] then some (g1 ++ (g2 ++ (g3 ++ (g4 ++ g5)))) else none
                  | none => none
                | none => none
              | none => none
            | none => none
          | none => none
        | none => none
      | none => none
    | none => none
  | none => none

theorem parseHyphenated_enc (l : List Nat) (h16 : l.length = 16) (hb : ∀ b ∈ l, b < 256) :
    parseHyphenated (encHyphenated l) = some l := by
  have hmem : ∀ (t : List Nat), (∀ b ∈ t, t.Sublist l → b < 256) := by
    intro t b hbt hsub
    exact hb b (hsub.mem hbt)
  have htk4 : (l.take 4).length = 4 := by simp [h16]
  have htk42 : ((l.drop 4).take 2).length = 2 := by simp [h16]
  have htk62 : ((l.drop 6).take 2).length = 2 := by simp [h16]
  have htk82 : ((l.drop 8).take 2).length = 2 := by simp [h16]
  have hdp10 : (l.drop 10).length = 6 := by simp [h16]
  have hb1 : ∀ b ∈ l.take 4, b < 256 := fun b hbm => hb b (List.mem_of_mem_take hbm)
  have hb2 : ∀ b ∈ (l.drop 4).take 2, b < 256 :=
    fun b hbm => hb b (List.mem_of_mem_drop (List.mem_of_mem_take hbm))
  have hb3 : ∀ b ∈ (l.drop 6).take 2, b < 256 :=
    fun b hbm => hb b (List.mem_of_mem_drop (List.mem_of_mem_take hbm))
  have hb4 : ∀ b ∈ (l.drop 8).take 2, b < 256 :=
    fun b hbm => hb b (List.mem_of_mem_drop (List.mem_of_mem_take hbm))
  have hb5 : ∀ b ∈ l.drop 10, b < 256 := fun b hbm => hb b (List.mem_of_mem_drop hbm)
  have r1 := readHexPairs_append (l.take 4) hb1
  have r2 := readHexPairs_append ((l.drop 4).take 2) hb2
  have r3 := readHexPairs_append ((l.drop 6).take 2) hb3
  have r4 := readHexPairs_append ((l.drop 8).take 2) hb4
  have r5 := readHexPairs_append (l.drop 10) hb5
  rw [htk4] at r1; rw [htk42] at r2; rw [htk62] at r3; rw [htk82] at r4; rw [hdp10] at r5
  have hre : ∀ rest, readHexPairs 6 (bytesToHex (l.drop 10) ++ rest) = some (l.drop 10, rest) := r5
  have hchunks : l.take 4 ++ ((l.drop 4).take 2 ++ ((l.drop 6).take 2 ++
      ((l.drop 8).take 2 ++ l.drop 10))) = l := by
    have e4 : (l.drop 4).drop 2 = l.drop 6 := by simp [List.drop_drop]
    have e6 : (l.drop 6).drop 2 = l.drop 8 := by simp [List.drop_drop]
    have e8 : (l.drop 8).drop 2 = l.drop 10 := by simp [List.drop_drop]
    rw [← e8, List.take_append_drop, ← e6, List.take_append_drop, ← e4,
      List.take_append_drop, List.take_append_drop]
  have r5nil : readHexPairs 6 (bytesToHex (l.drop 10)) = some (l.drop 10, []) := by
    have h := hre []
    simpa using h
  simp only [parseHyphenated, encHyphenated, List.append_assoc, r1, expectB,
    eq_self_iff_true, if_true]
  simp only [r2, expectB, eq_self_iff_true, if_true]
  simp only [r3, expectB, eq_self_iff_true, if_true]
  simp only [r4, expectB, eq_self_iff_true, if_true]
  simp only [r5nil]
  simp [hchunks]

/-- JSON Uuid: the uuid crate serializes the hyphenated hex string for
human-readable formats and parses it back. -/
def encJ_uuid (u : Uuid) : Json := .str (encHyphenated u.bytes.val)

def decJ_uuid : Json → Option Uuid
  | .str s =>
    match parseHyphenated s with
    | some bytes =>
      if h : bytes.length = 16 ∧ ∀ b ∈ bytes, b < 256 then some ⟨⟨bytes, h⟩⟩ else none
    | none => none
  | _ => none

theorem decJ_uuid_enc (u : Uuid) : decJ_uuid (encJ_uuid u) = some u := by
  simp only [encJ_uuid, decJ_uuid,
    parseHyphenated_enc u.bytes.val u.bytes.property.1 u.bytes.property.2]
  rw [dif_pos u.bytes.property]

/-- JSON RelativeLocation: a unit variant is its name as a bare string. -/
def encJ_loc : RelativeLocation → Json
  | .Left => .str (strBytes "Left")
  | .Center => .str (strBytes "Center")
  | .Right => .str (strBytes "Right")

def decJ_loc : Json → Option RelativeLocation
  | .str s =>
    if s = strBytes "Left" then some .Left
    else if s = strBytes "Center" then some .Center
    else if s = strBytes "Right" then some .Right
    else none
  | _ => none

theorem decJ_loc_enc (x : RelativeLocation) : decJ_loc (encJ_loc x) = some x := by
  cases x <;> rfl

/-- JSON Option of RelativeLocation: null for None, the value for Some. -/
def encJ_optLoc : Option RelativeLocation → Json
  | none => .null
  | some x => encJ_loc x

def decJ_optLoc : Json → Option (Option RelativeLocation)
  | .null => some none
  | j =>
    match decJ_loc j with
    | some x => some (some x)
    | none => none

theorem decJ_optLoc_enc (o : Option RelativeLocation) : decJ_optLoc (encJ_optLoc o) = some o := by
  cases o with
  | none => rfl
  | some x => cases x <;> rfl

/-- JSON Service: unit variant strings. -/
def encJ_service : Service → Json
  | .Subtitle => .str (strBytes "Subtitle")
  | .Colour => .str (strBytes "Colour")
  | .AudioPlayer => .str (strBytes "AudioPlayer")

def decJ_service : Json → Option Service
  | .str s =>
    if s = strBytes "Subtitle" then some .Subtitle
    else if s = strBytes "Colour" then some .Colour
    else if s = strBytes "AudioPlayer" then some .AudioPlayer
    else none
  | _ => none

theorem decJ_service_enc (x : Service) : decJ_service (encJ_service x) = some x := by
  cases x <;> rfl

/-- JSON ClientIdAndLocation: an object with fields id and location; serde
looks fields up by name, a missing Option field is None. -/
def encJ_cil (c : ClientIdAndLocation) : Json :=
  .obj [(strBytes "id", encJ_uuid c.id), (strBytes "location", encJ_optLoc c.location)]

def decJ_cil : Json → Option ClientIdAndLocation
  | .obj fs =>
    match jlookup (strBytes "id") fs with
    | some jid =>
      match decJ_uuid jid with
      | some u =>
        match
          (match jlookup (strBytes "location") fs with
           | none => some none
           | some jl => decJ_optLoc jl) with
        | some loc => some ⟨u, loc⟩
        | none => none
      | none => none
    | none => none
  | _ => none

theorem decJ_cil_enc (c : ClientIdAndLocation) : decJ_cil (encJ_cil c) = some c := by
  obtain ⟨u, loc⟩ := c
  have hk : strBytes "id" ≠ strBytes "location" := by decide
  simp [encJ_cil, decJ_cil, jlookup, hk, decJ_uuid_enc, decJ_optLoc_enc]

/-- JSON ColourRgb: an object with the u8 fields r, g, b. -/
def encJ_rgb (c : ColourRgb) : Json :=
  .obj [(strBytes "r", .num c.r.val), (strBytes "g", .num c.g.val), (strBytes "b", .num c.b.val)]

def decJ_u8 : Json → Option (Fin 256)
  | .num n => if h : n < 256 then some ⟨n, h⟩ else none
  | _ => none

theorem decJ_u8_num (x : Fin 256) : decJ_u8 (.num x.val) = some x := by
  simp [decJ_u8, x.isLt]

def decJ_rgb : Json → Option ColourRgb
  | .obj fs =>
    match jlookup (strBytes "r") fs with
    | some jr =>
      match decJ_u8 jr with
      | some r =>
        match jlookup (strBytes "g") fs with
        | some jg =>
          match decJ_u8 jg with
          | some g =>
            match jlookup (strBytes "b") fs with
            | some jb =>
              match decJ_u8 jb with
              | some b => some ⟨r, g, b⟩
              | none => none
            | none => none
          | none => none
        | none => none
      | none => none
    | none => none
  | _ => none

theorem decJ_rgb_enc (c : ColourRgb) : decJ_rgb (encJ_rgb c) = some c := by
  obtain ⟨r, g, b⟩ := c
  have h1 : strBytes "r" ≠ strBytes "g" := by decide
  have h2 : strBytes "r" ≠ strBytes "b" := by decide
  have h3 : strBytes "g" ≠ strBytes "b" := by decide
  simp [encJ_rgb, decJ_rgb, jlookup, h1, h2, h3, decJ_u8_num]

/-- JSON bounded string: serialize_str writes the bytes; the custom
deserialize reads a string and applies heapless try_from. -/
def decJ_hstr (n : Nat) : Json → Option (HString n)
  | .str s => HString.tryFrom n s
  | _ => none

theorem decJ_hstr_str {n : Nat} (x : HString n) : decJ_hstr n (.str x.val) = some x := by
  simp [decJ_hstr, HString.tryFrom, x.property]

theorem decJ_hstr_over (n : Nat) (l : List Nat) (hover : n < l.length) :
    decJ_hstr n (.str l) = none := by
  simp [decJ_hstr, HString.tryFrom, Nat.not_le.mpr hover]

/-- JSON AudioFile: the custom impl writes a two-field struct and reads the
fields through str helpers with heapless try_from. -/
def encJ_audiofile (a : AudioFile) : Json :=
  .obj [(strBytes "file_name", .str a.file_name.val),
        (strBytes "file_extension", .str a.file_extension.val)]

def decJ_audiofile : Json → Option AudioFile
  | .obj fs =>
    match jlookup (strBytes "file_name") fs with
    | some jn =>
      match decJ_hstr 50 jn with
      | some fn =>
        match jlookup (strBytes "file_extension") fs with
        | some je =>
          match decJ_hstr 4 je with
          | some fe => some ⟨fn, fe⟩
          | none => none
        | none => none
      | none => none
    | none => none
  | _ => none

theorem decJ_audiofile_enc (a : AudioFile) : decJ_audiofile (encJ_audiofile a) = some a := by
  obtain ⟨fn, fe⟩ := a
  have h1 : strBytes "file_name" ≠ strBytes "file_extension" := by decide
  simp [encJ_audiofile, decJ_audiofile, jlookup, h1, decJ_hstr_str]

/-- JSON AckResult and NackResult: unit variant strings. -/
def encJ_ack : AckResult → Json
  | .Success => .str (strBytes "Success")
  | .UpdatedSubscription => .str (strBytes "UpdatedSubscription")
  | .UpdatedLocation => .str (strBytes "UpdatedLocation")

def decJ_ack : Json → Option AckResult
  | .str s =>
    if s = strBytes "Success" then some .Success
    else if s = strBytes "UpdatedSubscription" then some .UpdatedSubscription
    else if s = strBytes "UpdatedLocation" then some .UpdatedLocation
    else none
  | _ => none

theorem decJ_ack_enc (x : AckResult) : decJ_ack (encJ_ack x) = some x := by
  cases x <;> rfl

def encJ_nack : NackResult → Json
  | .AlreadySubscribed => .str (strBytes "AlreadySubscribed")
  | .NotSubscribed => .str (strBytes "NotSubscribed")
  | .Failed => .str (strBytes "Failed")

def decJ_nack : Json → Option NackResult
  | .str s =>
    if s = strBytes "AlreadySubscribed" then some .AlreadySubscribed
    else if s = strBytes "NotSubscribed" then some .NotSubscribed
    else if s = strBytes "Failed" then some .Failed
    else none
  | _ => none

theorem decJ_nack_enc (x : NackResult) : decJ_nack (encJ_nack x) = some x := by
  cases x <;> rfl

/-- JSON Action: externally tagged, one-entry object per data variant. -/
def encJ_action : Action → Json
  | .ShowNewSubtitles s => .obj [(strBytes "ShowNewSubtitles", .str s.subtitles.val)]
  | .ChangeColour c => .obj [(strBytes "ChangeColour", encJ_rgb c)]
  | .PlayAudio a => .obj [(strBytes "PlayAudio", encJ_audiofile a)]

def decJ_action : Json → Option Action
  | .obj [(k, v)] =>
    if k = strBytes "ShowNewSubtitles" then
      match decJ_hstr 50 v with
      | some x => some (.ShowNewSubtitles ⟨x⟩)
      | none => none
    else if k = strBytes "ChangeColour" then
      match decJ_rgb v with
      | some x => some (.ChangeColour x)
      | none => none
    else if k = strBytes "PlayAudio" then
      match decJ_audiofile v with
      | some x => some (.PlayAudio x)
      | none => none
    else none
  | _ => none

theorem decJ_action_enc (a : Action) : decJ_action (encJ_action a) = some a := by
  have h1 : strBytes "ChangeColour" ≠ strBytes "ShowNewSubtitles" := by decide
  have h2 : strBytes "PlayAudio" ≠ strBytes "ShowNewSubtitles" := by decide
  have h3 : strBytes "PlayAudio" ≠ strBytes "ChangeColour" := by decide
  cases a with
  | ShowNewSubtitles s =>
    obtain ⟨x⟩ := s
    simp [encJ_action, decJ_action, decJ_hstr_str]
  | ChangeColour c => simp [encJ_action, decJ_action, h1, decJ_rgb_enc]
  | PlayAudio a => simp [encJ_action, decJ_action, h2, h3, decJ_audiofile_enc]

/-- JSON Event: externally tagged; tuple variants carry a two-element array. -/
def encJ_event : Event → Json
  | .Register c => .obj [(strBytes "Register", encJ_cil c)]
  | .SuscribeToService s c =>
    .obj [(strBytes "SuscribeToService", .arr [encJ_service s, encJ_cil c])]
  | .UnsubscribeFromService s c =>
    .obj [(strBytes "UnsubscribeFromService", .arr [encJ_service s, encJ_cil c])]
  | .UpdateLocation c => .obj [(strBytes "UpdateLocation", encJ_cil c)]
  | .PerformAction a => .obj [(strBytes "PerformAction", encJ_action a)]

def decJ_pair (j : Json) : Option (Service × ClientIdAndLocation) :=
  match j with
  | .arr [j1, j2] =>
    match decJ_service j1 with
    | some s =>
      match decJ_cil j2 with
      | some c => some (s, c)
      | none => none
    | none => none
  | _ => none

theorem decJ_pair_enc (s : Service) (c : ClientIdAndLocation) :
    decJ_pair (.arr [encJ_service s, encJ_cil c]) = some (s, c) := by
  simp [decJ_pair, decJ_service_enc, decJ_cil_enc]

def decJ_event : Json → Option Event
  | .obj [(k, v)] =>
    if k = strBytes "Register" then
      match decJ_cil v with
      | some c => some (.Register c)
      | none => none
    else if k = strBytes "SuscribeToService" then
      match decJ_pair v with
      | some (s, c) => some (.SuscribeToService s c)
      | none => none
    else if k = strBytes "UnsubscribeFromService" then
      match decJ_pair v with
      | some (s, c) => some (.UnsubscribeFromService s c)
      | none => none
    else if k = strBytes "UpdateLocation" then
      match decJ_cil v with
      | some c => some (.UpdateLocation c)
      | none => none
    else if k = strBytes "PerformAction" then
      match decJ_action v with
      | some a => some (.PerformAction a)
      | none => none
    else none
  | _ => none

theorem decJ_event_enc (e : Event) : decJ_event (encJ_event e) = some e := by
  cases e with
  | Register c => simp [encJ_event, decJ_event, decJ_cil_enc]
  | SuscribeToService s c =>
    have h1 : strBytes "SuscribeToService" ≠ strBytes "Register" := by decide
    simp [encJ_event, decJ_event, h1, decJ_pair_enc]
  | UnsubscribeFromService s c =>
    have h1 : strBytes "UnsubscribeFromService" ≠ strBytes "Register" := by decide
    have h2 : strBytes "UnsubscribeFromService" ≠ strBytes "SuscribeToService" := by decide
    simp [encJ_event, decJ_event, h1, h2, decJ_pair_enc]
  | UpdateLocation c =>
    have h1 : strBytes "UpdateLocation" ≠ strBytes "Register" := by decide
    have h2 : strBytes "UpdateLocation" ≠ strBytes "SuscribeToService" := by decide
    have h3 : strBytes "UpdateLocation" ≠ strBytes "UnsubscribeFromService" := by decide
    simp [encJ_event, decJ_event, h1, h2, h3, decJ_cil_enc]
  | PerformAction a =>
    have h1 : strBytes "PerformAction" ≠ strBytes "Register" := by decide
    have h2 : strBytes "PerformAction" ≠ strBytes "SuscribeToService" := by decide
    have h3 : strBytes "PerformAction" ≠ strBytes "UnsubscribeFromService" := by decide
    have h4 : strBytes "PerformAction" ≠ strBytes "UpdateLocation" := by decide
    simp [encJ_event, decJ_event, h1, h2, h3, h4, decJ_action_enc]

/-- JSON ExchangeMessage: externally tagged; the unit variants NextScene,
RetriggerScene, Heartbeat and HeartbeatAck are bare strings. -/
def encJ_msg : ExchangeMessage → Json
  | .Ack a => .obj [(strBytes "Ack", encJ_ack a)]
  | .Nack n => .obj [(strBytes "Nack", encJ_nack n)]
  | .Request e => .obj [(strBytes "Request", encJ_event e)]
  | .Scene e => .obj [(strBytes "Scene", encJ_event e)]
  | .Error e => .obj [(strBytes "Error", .str e.error_descr.val)]
  | .NextScene => .str (strBytes "NextScene")
  | .RetriggerScene => .str (strBytes "RetriggerScene")
  | .Heartbeat => .str (strBytes "Heartbeat")
  | .HeartbeatAck => .str (strBytes "HeartbeatAck")

def decJ_msg : Json → Option ExchangeMessage
  | .str s =>
    if s = strBytes "NextScene" then some .NextScene
    else if s = strBytes "RetriggerScene" then some .RetriggerScene
    else if s = strBytes "Heartbeat" then some .Heartbeat
    else if s = strBytes "HeartbeatAck" then some .HeartbeatAck
    else none
  | .obj [(k, v)] =>
    if k = strBytes "Ack" then
      match decJ_ack v with
      | some a => some (.Ack a)
      | none => none
    else if k = strBytes "Nack" then
      match decJ_nack v with
      | some n => some (.Nack n)
      | none => none
    else if k = strBytes "Request" then
      match decJ_event v with
      | some e => some (.Request e)
      | none => none
    else if k = strBytes "Scene" then
      match decJ_event v with
      | some e => some (.Scene e)
      | none => none
    else if k = strBytes "Error" then
      match decJ_hstr 100 v with
      | some x => some (.Error ⟨x⟩)
      | none => none
    else none
  | _ => none

theorem decJ_msg_enc (m : ExchangeMessage) : decJ_msg (encJ_msg m) = some m := by
  cases m with
  | Ack a => simp [encJ_msg, decJ_msg, decJ_ack_enc]
  | Nack n =>
    have h1 : strBytes "Nack" ≠ strBytes "Ack" := by decide
    simp [encJ_msg, decJ_msg, h1, decJ_nack_enc]
  | Request e =>
    have h1 : strBytes "Request" ≠ strBytes "Ack" := by decide
    have h2 : strBytes "Request" ≠ strBytes "Nack" := by decide
    simp [encJ_msg, decJ_msg, h1, h2, decJ_event_enc]
  | Scene e =>
    have h1 : strBytes "Scene" ≠ strBytes "Ack" := by decide
    have h2 : strBytes "Scene" ≠ strBytes "Nack" := by decide
    have h3 : strBytes "Scene" ≠ strBytes "Request" := by decide
    simp [encJ_msg, decJ_msg, h1, h2, h3, decJ_event_enc]
  | Error e =>
    obtain ⟨x⟩ := e
    have h1 : strBytes "Error" ≠ strBytes "Ack" := by decide
    have h2 : strBytes "Error" ≠ strBytes "Nack" := by decide
    have h3 : strBytes "Error" ≠ strBytes "Request" := by decide
    have h4 : strBytes "Error" ≠ strBytes "Scene" := by decide
    simp [encJ_msg, decJ_msg, h1, h2, h3, h4, decJ_hstr_str]
  | NextScene => rfl
  | RetriggerScene => rfl
  | Heartbeat => rfl
  | HeartbeatAck => rfl

/-- C2: for every value V of the ExchangeMessage type, decoding the text
(JSON) encoding of V yields V and decoding the binary (postcard) encoding
of V yields V; and for each bounded string field (subtitles capacity 50,
file name 50, extension 4, error description 100) an input exceeding the
cap makes decoding fail in both encodings, rather than truncate or
default. -/
theorem exchange_message_roundtrip_and_strict_caps :
    (∀ m : ExchangeMessage, decJ_msg (encJ_msg m) = some m) ∧
    (∀ (m : ExchangeMessage) (rest : List Nat), decB_msg (encB_msg m ++ rest) = some (m, rest)) ∧
    (∀ l : List Nat, 50 < l.length →
      decJ_msg (.obj [(strBytes "Scene", .obj [(strBytes "PerformAction",
        .obj [(strBytes "ShowNewSubtitles", .str l)])])]) = none) ∧
    (∀ l : List Nat, 50 < l.length →
      decJ_msg (.obj [(strBytes "Scene", .obj [(strBytes "PerformAction",
        .obj [(strBytes "PlayAudio", .obj [(strBytes "file_name", .str l),
          (strBytes "file_extension", .str [])])])])]) = none) ∧
    (∀ l : List Nat, 4 < l.length →
      decJ_msg (.obj [(strBytes "Scene", .obj [(strBytes "PerformAction",
        .obj [(strBytes "PlayAudio", .obj [(strBytes "file_name", .str []),
          (strBytes "file_extension", .str l)])])])]) = none) ∧
    (∀ l : List Nat, 100 < l.length →
      decJ_msg (.obj [(strBytes "Error", .str l)]) = none) ∧
    (∀ l : List Nat, 50 < l.length →
      decB_msg (encVarint 3 ++ (encVarint 4 ++ (encVarint 0 ++
        (encVarint l.length ++ l)))) = none) ∧
    (∀ l : List Nat, 50 < l.length →
      decB_msg (encVarint 3 ++ (encVarint 4 ++ (encVarint 2 ++
        (encVarint l.length ++ l)))) = none) ∧
    (∀ (fn : HString 50) (l : List Nat), 4 < l.length →
      decB_msg (encVarint 3 ++ (encVarint 4 ++ (encVarint 2 ++
        (encB_hstr fn ++ (encVarint l.length ++ l))))) = none) ∧
    (∀ l : List Nat, 100 < l.length →
      decB_msg (encVarint 4 ++ (encVarint l.length ++ l)) = none) := by
  have hover : ∀ (n : Nat) (l : List Nat), n < l.length →
      decB_hstr n (encVarint l.length ++ l) = none := by
    intro n l h
    have hc := decB_hstr_over n l [] h
    simpa using hc
  have hSc1 : strBytes "Scene" ≠ strBytes "Ack" := by decide
  have hSc2 : strBytes "Scene" ≠ strBytes "Nack" := by decide
  have hSc3 : strBytes "Scene" ≠ strBytes "Request" := by decide
  have hPa1 : strBytes "PerformAction" ≠ strBytes "Register" := by decide
  have hPa2 : strBytes "PerformAction" ≠ strBytes "SuscribeToService" := by decide
  have hPa3 : strBytes "PerformAction" ≠ strBytes "UnsubscribeFromService" := by decide
  have hPa4 : strBytes "PerformAction" ≠ strBytes "UpdateLocation" := by decide
  have hPl1 : strBytes "PlayAudio" ≠ strBytes "ShowNewSubtitles" := by decide
  have hPl2 : strBytes "PlayAudio" ≠ strBytes "ChangeColour" := by decide
  have hFl : strBytes "file_name" ≠ strBytes "file_extension" := by decide
  have hEr1 : strBytes "Error" ≠ strBytes "Ack" := by decide
  have hEr2 : strBytes "Error" ≠ strBytes "Nack" := by decide
  have hEr3 : strBytes "Error" ≠ strBytes "Request" := by decide
  have hEr4 : strBytes "Error" ≠ strBytes "Scene" := by decide
  refine ⟨decJ_msg_enc, decB_msg_enc, ?_, ?_, ?_, ?_, ?_, ?_, ?_, ?_⟩
  · intro l h
    simp [decJ_msg, decJ_event, decJ_action, hSc1, hSc2, hSc3, hPa1, hPa2, hPa3, hPa4,
      decJ_hstr_over 50 l h]
  · intro l h
    simp [decJ_msg, decJ_event, decJ_action, decJ_audiofile, jlookup,
      hSc1, hSc2, hSc3, hPa1, hPa2, hPa3, hPa4, hPl1, hPl2,
      decJ_hstr_over 50 l h]
  · intro l h
    simp [decJ_msg, decJ_event, decJ_action, decJ_audiofile, jlookup, hFl,
      hSc1, hSc2, hSc3, hPa1, hPa2, hPa3, hPa4, hPl1, hPl2,
      decJ_hstr_str (⟨[], by simp⟩ : HString 50), decJ_hstr_over 4 l h]
  · intro l h
    simp [decJ_msg, hEr1, hEr2, hEr3, hEr4, decJ_hstr_over 100 l h]
  · intro l h
    simp [decB_msg, decB_event, decB_action, List.append_assoc, readVarint_encVarint,
      hover 50 l h]
  · intro l h
    simp [decB_msg, decB_event, decB_action, decB_audiofile, List.append_assoc,
      readVarint_encVarint, hover 50 l h]
  · intro fn l h
    simp [decB_msg, decB_event, decB_action, decB_audiofile, List.append_assoc,
      readVarint_encVarint, decB_hstr_enc, hover 4 l h]
  · intro l h
    simp [decB_msg, List.append_assoc, readVarint_encVarint, hover 100 l h]

/-- Witness for C2 at concrete inputs: a round-trip of a Scene message in
both encodings, and cap rejections at length 51 and 101. -/
theorem exchange_message_roundtrip_and_strict_caps_witness :
    decJ_msg (encJ_msg .Heartbeat) = some .Heartbeat ∧
    decB_msg (encB_msg .NextScene ++ [9]) = some (.NextScene, [9]) ∧
    decJ_msg (.obj [(strBytes "Scene", .obj [(strBytes "PerformAction",
      .obj [(strBytes "ShowNewSubtitles", .str (List.replicate 51 97))])])]) = none ∧
    decJ_msg (.obj [(strBytes "Error", .str (List.replicate 101 97))]) = none ∧
    decB_msg (encVarint 3 ++ (encVarint 4 ++ (encVarint 0 ++
      (encVarint (List.replicate 51 97).length ++ List.replicate 51 97)))) = none :=
  ⟨exchange_message_roundtrip_and_strict_caps.1 .Heartbeat,
   exchange_message_roundtrip_and_strict_caps.2.1 .NextScene [9],
   exchange_message_roundtrip_and_strict_caps.2.2.1 (List.replicate 51 97) (by simp),
   exchange_message_roundtrip_and_strict_caps.2.2.2.2.2.1 (List.replicate 101 97) (by simp),
   exchange_message_roundtrip_and_strict_caps.2.2.2.2.2.2.1 (List.replicate 51 97) (by simp)⟩

/-!
Server side: the service actors of src/server/src/services/mod.rs and
src/server/src/services/service.rs.  The server sources use the richer
Event and Action shapes (with a Midi service and a Midi action variant)
that the spec documents; the bundled lamarrs-utils revision omits them, so
the server namespace mirrors the shapes the server code matches on.
Mailbox handles (tokio Sender values) are modelled as numeric identities;
a send is recorded as a pair of the handle and the message.
-/

/-- MidiEvent from lamarrs-utils/src/midi_event.rs (the payload the server
revision carries in the Midi action variant). -/
inductive MidiEvent
  | NoteOn (channel key vel : Nat)
  | NoteOff (channel key : Nat)
  | ControlChange (channel ctrl value : Nat)
  | AllNotesOff (channel : Nat)
  | AllSoundOff (channel : Nat)
  | PitchBend (channel value : Nat)
  | ProgramChange (channel program_id : Nat)
  | ChannelPressure (channel value : Nat)
  | PolyphonicKeyPressure (channel key value : Nat)
  | SystemReset
deriving DecidableEq

namespace Server

/-- Modelled from the spec: the server crate matches an Action shape with a
Midi variant (service.rs matches Action::Midi); the bundled lamarrs-utils
revision lacks that variant, so it is taken from the spec here, with the
other three variants exactly as in action_messages.rs. -/
inductive Action
  | ShowNewSubtitles (s : Subtitles)
  | ChangeColour (c : ColourRgb)
  | PlayAudio (a : AudioFile)
  | Midi (m : MidiEvent)
deriving DecidableEq

/-- Modelled from the spec: the Service enumeration the server matches on
(client_handler.rs routes on Service::Midi as well as the three utils
variants). -/
inductive Service
  | Subtitle
  | Colour
  | AudioPlayer
  | Midi
deriving DecidableEq, Repr

/-- Event as the server matches it, over the server Action and Service. -/
inductive Event
  | Register (c : ClientIdAndLocation)
  | SuscribeToService (s : Service) (c : ClientIdAndLocation)
  | UnsubscribeFromService (s : Service) (c : ClientIdAndLocation)
  | UpdateLocation (c : ClientIdAndLocation)
  | PerformAction (a : Action)
deriving DecidableEq

/-- ExchangeMessage as the server handles it, over the server Event. -/
inductive ExchangeMessage
  | Ack (a : AckResult)
  | Nack (n : NackResult)
  | Request (e : Event)
  | Scene (e : Event)
  | Error (e : ErrorDescription)
  | NextScene
  | RetriggerScene
  | Heartbeat
  | HeartbeatAck
deriving DecidableEq

/-- TargetClient from services/mod.rs: the stored mailbox handle and the
subscriber location. -/
structure TargetClient where
  sender : Nat
  location : Option RelativeLocation
deriving DecidableEq

/-- LamarrsServiceError from services/mod.rs (payload strings dropped). -/
inductive LamarrsServiceError
  | Service
  | SendExchangeMessage
  | SendInternalEventMessage
  | NotAllowedMessageType
  | ClientNotFound
  | ClientAlreadySubscribed
deriving DecidableEq, Repr

/-- The four service actors of services/service.rs. -/
inductive ServiceKind
  | SubtitleService
  | ColourService
  | PlaybackService
  | MidiService
deriving DecidableEq, Repr

/-- action_is_allowed of each LamarrsService impl in services/service.rs. -/
def action_is_allowed : ServiceKind → Action → Bool
  | .SubtitleService, .ShowNewSubtitles _ => true
  | .SubtitleService, _ => false
  | .ColourService, .ChangeColour _ => true
  | .ColourService, _ => false
  | .PlaybackService, .PlayAudio _ => true
  | .PlaybackService, _ => false
  | .MidiService, .Midi _ => true
  | .MidiService, _ => false

/-- The subscriber table: the HashMap from Uuid to TargetClient, as an
association list whose keys are unique. -/
abbrev Table : Type := List (Uuid × TargetClient)

/-- HashMap entry lookup by UUID. -/
def lookupEntry : Table → Uuid → Option TargetClient
  | [], _ => none
  | (u2, tc) :: rest, u => if u2 = u then some tc else lookupEntry rest u

/-- Outcome of one service operation: the table afterwards, the messages
sent to client mailboxes, and the value returned to the run loop. -/
structure OpResult where
  table : Table
  sends : List (Nat × ExchangeMessage)
  result : Except LamarrsServiceError Unit

/-- update_target_client of services/mod.rs: on an existing entry, assign
the new sender to the entry and send Ack(UpdatedSubscription) through it;
otherwise report ClientNotFound.  (Only the sender field of the entry is
assigned; the location carried in the message is not stored.) -/
def update_target_client (table : Table) (client_id_and_location : ClientIdAndLocation)
    (new_client_sender : Nat) : OpResult :=
  match lookupEntry table client_id_and_location.id with
  | some _ =>
    { table := table.map (fun e =>
        if e.1 = client_id_and_location.id then (e.1, { e.2 with sender := new_client_sender })
        else e),
      sends := [(new_client_sender, .Ack .UpdatedSubscription)],
      result := .ok () }
  | none =>
    { table := table, sends := [], result := .error .ClientNotFound }

/-- insert_target_client of services/mod.rs: on a vacant key insert the
entry and Ack(Success) through the received sender; on an occupied key
send Nack(AlreadySubscribed) through the saved sender and report the
error, leaving the table unchanged. -/
def insert_target_client (table : Table) (client_id_and_location : ClientIdAndLocation)
    (client_sender : Nat) : OpResult :=
  match lookupEntry table client_id_and_location.id with
  | some client =>
    { table := table,
      sends := [(client.sender, .Nack .AlreadySubscribed)],
      result := .error .ClientAlreadySubscribed }
  | none =>
    { table := table ++ [(client_id_and_location.id,
        { sender := client_sender, location := client_id_and_location.location })],
      sends := [(client_sender, .Ack .Success)],
      result := .ok () }

/-- remove_target_client of services/mod.rs: delete an occupied entry;
a vacant key is a ClientNotFound error. -/
def remove_target_client (table : Table) (client_id_and_location : ClientIdAndLocation) :
    OpResult :=
  match lookupEntry table client_id_and_location.id with
  | some _ =>
    { table := table.filter (fun e => decide (e.1 ≠ client_id_and_location.id)),
      sends := [], result := .ok () }
  | none =>
    { table := table, sends := [], result := .error .ClientNotFound }

/-- The per-entry emission of write_to_target_clients: when a location
filter is present, entries whose stored location equals it are selected;
otherwise entries with no stored location are selected.  Selected entries
receive Scene(PerformAction(action)) through their sender.  The entry key
is kept alongside the send for bookkeeping. -/
def targetEmit (a : Action) (relative_location : Option RelativeLocation)
    (e : Uuid × TargetClient) : Option (Uuid × Nat × ExchangeMessage) :=
  if relative_location.isSome then
    if e.2.location = relative_location then
      some (e.1, e.2.sender, .Scene (.PerformAction a))
    else none
  else if e.2.location.isNone then
    some (e.1, e.2.sender, .Scene (.PerformAction a))
  else none

/-- Outcome of write_to_target_clients: the (untouched) table, the Scene
sends with their target entry, and the returned value. -/
structure WriteOutcome where
  table : Table
  sends : List (Uuid × Nat × ExchangeMessage)
  result : Except LamarrsServiceError Unit

/-- write_to_target_clients of services/mod.rs: reject a disallowed action
with NotAllowedMessageType before any send; otherwise filter the table by
location as the source filter_map does and send the Scene to every
selected sender. -/
def write_to_target_clients (k : ServiceKind) (table : Table)
    (message_for_subscribed_clients : Action)
    (relative_location : Option RelativeLocation) : WriteOutcome :=
  if ¬ action_is_allowed k message_for_subscribed_clients then
    { table := table, sends := [], result := .error .NotAllowedMessageType }
  else
    { table := table,
      sends := table.filterMap (targetEmit message_for_subscribed_clients relative_location),
      result := .ok () }

/-- The selection condition of write_to_target_clients, as a proposition:
with a filter present the entry location must equal it, with no filter the
entry must have no location. -/
def entryMatches (relative_location entryLoc : Option RelativeLocation) : Prop :=
  if relative_location.isSome then entryLoc = relative_location else entryLoc = none

instance (relative_location entryLoc : Option RelativeLocation) :
    Decidable (entryMatches relative_location entryLoc) := by
  unfold entryMatches
  infer_instance

theorem targetEmit_eq (a : Action) (loc : Option RelativeLocation) (e : Uuid × TargetClient) :
    targetEmit a loc e =
      if entryMatches loc e.2.location then some (e.1, e.2.sender, .Scene (.PerformAction a))
      else none := by
  rcases loc with _ | l <;> rcases hb : e.2.location with _ | el <;>
    simp [targetEmit, entryMatches, hb]

theorem mem_filterMap_targetEmit (a : Action) (loc : Option RelativeLocation)
    (table : Table) (x : Uuid × Nat × ExchangeMessage)
    (hx : x ∈ table.filterMap (targetEmit a loc)) :
    x.2.2 = ExchangeMessage.Scene (.PerformAction a) ∧
      ∃ tc, (x.1, tc) ∈ table ∧ x.2.1 = tc.sender ∧ entryMatches loc tc.location := by
  rcases List.mem_filterMap.mp hx with ⟨e, hmem, hemit⟩
  rw [targetEmit_eq] at hemit
  by_cases hm : entryMatches loc e.2.location
  · rw [if_pos hm] at hemit
    obtain rfl : x = (e.1, e.2.sender, ExchangeMessage.Scene (.PerformAction a)) :=
      (Option.some_inj.mp hemit).symm
    exact ⟨rfl, e.2, by simpa using hmem, rfl, hm⟩
  · rw [if_neg hm] at hemit
    exact absurd hemit (by simp)

theorem count_filterMap_targetEmit_zero (a : Action) (loc : Option RelativeLocation)
    (table : Table) (u : Uuid) (s : Nat) (m : ExchangeMessage)
    (hu : u ∉ table.map Prod.fst) :
    (table.filterMap (targetEmit a loc)).count (u, s, m) = 0 := by
  rw [List.count_eq_zero]
  intro hmem
  rcases mem_filterMap_targetEmit a loc table _ hmem with ⟨_, tc, htc, _, _⟩
  exact hu (List.mem_map_of_mem Prod.fst htc)

theorem count_filterMap_targetEmit (a : Action) (loc : Option RelativeLocation) :
    ∀ (table : Table), (table.map Prod.fst).Nodup →
    ∀ (u : Uuid) (tc : TargetClient), (u, tc) ∈ table →
      (table.filterMap (targetEmit a loc)).count (u, tc.sender, .Scene (.PerformAction a)) =
        if entryMatches loc tc.location then 1 else 0 := by
  intro table
  induction table with
  | nil => intro _ u tc hmem; cases hmem
  | cons e rest ih =>
    intro hnd u tc hmem
    have hkey : e.1 ∉ rest.map Prod.fst := (List.nodup_cons.mp (by simpa using hnd)).1
    have hnd2 : (rest.map Prod.fst).Nodup := (List.nodup_cons.mp (by simpa using hnd)).2
    rw [List.filterMap_cons]
    rcases List.mem_cons.mp hmem with heq | hmemr
    · obtain rfl : e = (u, tc) := heq.symm
      rw [targetEmit_eq]
      by_cases hm : entryMatches loc tc.location
      · rw [if_pos (by simpa using hm)]
        rw [List.count_cons]
        simp only [if_pos hm]
        rw [count_filterMap_targetEmit_zero a loc rest u tc.sender _ (by simpa using hkey)]
        simp
      · rw [if_neg (by simpa using hm)]
        rw [count_filterMap_targetEmit_zero a loc rest u tc.sender _ (by simpa using hkey)]
        simp [hm]
    · have hne : u ≠ e.1 := by
        intro hcon
        exact hkey (hcon ▸ List.mem_map_of_mem Prod.fst hmemr)
      rw [targetEmit_eq]
      by_cases hm : entryMatches loc e.2.location
      · rw [if_pos hm, List.count_cons]
        rw [ih hnd2 u tc hmemr]
        have hne2 : ¬((u, tc.sender, ExchangeMessage.Scene (.PerformAction a)) =
            (e.1, e.2.sender, ExchangeMessage.Scene (.PerformAction a))) := by
          intro hcon
          exact hne (congrArg Prod.fst hcon)
        simp [hne2]
        intro hcon
        exact absurd hcon.symm hne
      · rw [if_neg hm]
        exact ih hnd2 u tc hmemr

/-- C1: processing PerformAction(A, loc) for an allowed action A sends
exactly one Scene(PerformAction(A)) to each table entry selected by the
location filter (entry location equal to loc when loc is present, entry
location absent when loc is absent), sends nothing to any other entry, and
leaves the subscriber table unchanged. -/
theorem perform_action_fanout_exactly_once
    (k : ServiceKind) (table : Table) (a : Action) (loc : Option RelativeLocation)
    (hallowed : action_is_allowed k a = true)
    (hnodup : (table.map Prod.fst).Nodup) :
    (write_to_target_clients k table a loc).result = .ok () ∧
    (write_to_target_clients k table a loc).table = table ∧
    (∀ (u : Uuid) (tc : TargetClient), (u, tc) ∈ table →
      ((write_to_target_clients k table a loc).sends).count
          (u, tc.sender, .Scene (.PerformAction a)) =
        if entryMatches loc tc.location then 1 else 0) ∧
    (∀ x ∈ (write_to_target_clients k table a loc).sends,
      x.2.2 = ExchangeMessage.Scene (.PerformAction a) ∧
      ∃ tc, (x.1, tc) ∈ table ∧ x.2.1 = tc.sender ∧ entryMatches loc tc.location) := by
  unfold write_to_target_clients
  rw [if_neg (by simp [hallowed])]
  exact ⟨rfl, rfl,
    fun u tc hmem => count_filterMap_targetEmit a loc table hnodup u tc hmem,
    fun x hx => mem_filterMap_targetEmit a loc table x hx⟩

/-- C3: each service actor only allows its own action kind, and a
disallowed action produces the NotAllowedMessageType hard error with no
Scene sent to anyone and the table untouched. -/
theorem disallowed_action_hard_error_no_scene :
    (∀ a, action_is_allowed .SubtitleService a = true ↔ ∃ s, a = Action.ShowNewSubtitles s) ∧
    (∀ a, action_is_allowed .ColourService a = true ↔ ∃ c, a = Action.ChangeColour c) ∧
    (∀ a, action_is_allowed .PlaybackService a = true ↔ ∃ f, a = Action.PlayAudio f) ∧
    (∀ a, action_is_allowed .MidiService a = true ↔ ∃ m, a = Action.Midi m) ∧
    (∀ (k : ServiceKind) (a : Action) (table : Table) (loc : Option RelativeLocation),
      action_is_allowed k a = false →
        (write_to_target_clients k table a loc).sends = [] ∧
        (write_to_target_clients k table a loc).result = .error .NotAllowedMessageType ∧
        (write_to_target_clients k table a loc).table = table) := by
  refine ⟨?_, ?_, ?_, ?_, ?_⟩
  · intro a; cases a <;> simp [action_is_allowed]
  · intro a; cases a <;> simp [action_is_allowed]
  · intro a; cases a <;> simp [action_is_allowed]
  · intro a; cases a <;> simp [action_is_allowed]
  · intro k a table loc h
    unfold write_to_target_clients
    rw [if_pos (by simp [h])]
    exact ⟨rfl, rfl, rfl⟩

/-- C4: AddTargetClient inserts a vacant identity with the carried mailbox
and location and acknowledges Success on the new mailbox; a duplicate
identity is refused with Nack(AlreadySubscribed) on the stored mailbox, an
error to the caller, and no change at all to the table. -/
theorem add_target_client_insert_or_reject
    (table : Table) (cil : ClientIdAndLocation) (client_sender : Nat) :
    (lookupEntry table cil.id = none →
      insert_target_client table cil client_sender =
        { table := table ++ [(cil.id, { sender := client_sender, location := cil.location })],
          sends := [(client_sender, .Ack .Success)],
          result := .ok () }) ∧
    (∀ tc, lookupEntry table cil.id = some tc →
      insert_target_client table cil client_sender =
        { table := table,
          sends := [(tc.sender, .Nack .AlreadySubscribed)],
          result := .error .ClientAlreadySubscribed }) := by
  constructor
  · intro h; simp [insert_target_client, h]
  · intro tc h; simp [insert_target_client, h]

end Server

/-- A concrete UUID (sixteen zero bytes) for witnesses. -/
def uuidA : Uuid := ⟨⟨List.replicate 16 0, by decide⟩⟩

/-- A second concrete UUID (sixteen one bytes) for witnesses. -/
def uuidB : Uuid := ⟨⟨List.replicate 16 1, by decide⟩⟩

/-- A concrete two-entry subscriber table for witnesses. -/
def tblW : Server.Table :=
  [(uuidA, { sender := 1, location := some .Left }), (uuidB, { sender := 2, location := none })]

/-- A concrete colour action for witnesses. -/
def actW : Server.Action := .ChangeColour ⟨0, 0, 0⟩

/-- Witness for C1: on the concrete table, a Left-filtered colour action is
delivered exactly once to the Left entry and never to the unlocated one. -/
theorem perform_action_fanout_exactly_once_witness :
    Server.action_is_allowed .ColourService actW = true ∧
    (tblW.map Prod.fst).Nodup ∧
    ((Server.write_to_target_clients .ColourService tblW actW (some .Left)).sends).count
        (uuidA, 1, .Scene (.PerformAction actW)) = 1 ∧
    ((Server.write_to_target_clients .ColourService tblW actW (some .Left)).sends).count
        (uuidB, 2, .Scene (.PerformAction actW)) = 0 := by
  have h := Server.perform_action_fanout_exactly_once .ColourService tblW actW (some .Left)
    rfl (by decide)
  refine ⟨rfl, by decide, ?_, ?_⟩
  · have h1 := h.2.2.1 uuidA { sender := 1, location := some .Left } (by simp [tblW])
    simpa [Server.entryMatches] using h1
  · have h2 := h.2.2.1 uuidB { sender := 2, location := none } (by simp [tblW])
    simpa [Server.entryMatches] using h2

/-- Witness for C3: the subtitle actor refuses a colour action with the
hard error and no sends. -/
theorem disallowed_action_hard_error_no_scene_witness :
    Server.action_is_allowed .SubtitleService actW = false ∧
    (Server.write_to_target_clients .SubtitleService tblW actW none).sends = [] ∧
    (Server.write_to_target_clients .SubtitleService tblW actW none).result =
      .error .NotAllowedMessageType := by
  have h := Server.disallowed_action_hard_error_no_scene.2.2.2.2
    .SubtitleService actW tblW none rfl
  exact ⟨rfl, h.1, h.2.1⟩

/-- Witness for C4: inserting a fresh identity into the empty table, then
rejecting the duplicate against the stored entry. -/
theorem add_target_client_insert_or_reject_witness :
    Server.lookupEntry [] uuidA = none ∧
    Server.insert_target_client [] { id := uuidA, location := some .Left } 1 =
      { table := [(uuidA, { sender := 1, location := some .Left })],
        sends := [(1, .Ack .Success)],
        result := .ok () } ∧
    Server.lookupEntry [(uuidA, { sender := 1, location := some .Left })] uuidA =
      some { sender := 1, location := some .Left } ∧
    Server.insert_target_client [(uuidA, { sender := 1, location := some .Left })]
        { id := uuidA, location := some .Right } 7 =
      { table := [(uuidA, { sender := 1, location := some .Left })],
        sends := [(1, .Nack .AlreadySubscribed)],
        result := .error .ClientAlreadySubscribed } := by
  refine ⟨rfl, ?_, by decide, ?_⟩
  · exact (Server.add_target_client_insert_or_reject [] { id := uuidA, location := some .Left }
      1).1 rfl
  · exact (Server.add_target_client_insert_or_reject
      [(uuidA, { sender := 1, location := some .Left })]
      { id := uuidA, location := some .Right } 7).2
      { sender := 1, location := some .Left } (by decide)

/-!
Client handler: src/server/src/client_handler.rs.  The run loop of the
handler is modelled as a step function over its mutable state (the stored
identity, the watchdog flag, the latched wire), driven by the events the
select loop can observe: a watchdog timeout, a well-formed or malformed
text or binary frame, a close, an unsupported frame, or a message arriving
on the handler mailbox to be written to the socket.
-/

/-- ClientWire from client_handler.rs. -/
inductive ClientWire
  | Binary
  | Text
deriving DecidableEq, Repr

/-- The mutable fields of the Client struct the protocol claims concern. -/
structure ClientState where
  id : Option ClientIdAndLocation
  watchdog_sent : Bool
  wire : ClientWire
deriving DecidableEq

/-- Client::new: no identity, watchdog flag clear, wire defaulted Binary. -/
def initialClient : ClientState :=
  { id := none, watchdog_sent := false, wire := .Binary }

/-- One event observed by the handler select loop. -/
inductive ClientInput
  | timeout
  | text (m : Server.ExchangeMessage)
  | binary (m : Server.ExchangeMessage)
  | textMalformed
  | binaryMalformed
  | close
  | unsupported
  | outbox (m : Server.ExchangeMessage)
deriving DecidableEq

/-- InternalEventMessageServer from services/mod.rs as the handler sends it
(the mailbox handle argument is always the handler sender and is omitted). -/
inductive InternalMsg
  | AddTargetClient (c : ClientIdAndLocation)
  | RemoveTargetClient (c : ClientIdAndLocation)
  | UpdateClientData (c : ClientIdAndLocation)
deriving DecidableEq

/-- The effects of handling one event. -/
structure StepOutput where
  state : ClientState
  writes : List (ClientWire × Server.ExchangeMessage)
  serviceSends : List (Server.ServiceKind × InternalMsg)
  outboxSends : List Server.ExchangeMessage
  sequencerSends : List Server.ExchangeMessage
  terminated : Bool
deriving DecidableEq

/-- The service actor a Service value routes to in subscribe_to_service and
unsubscribe_from_service. -/
def svcOf : Server.Service → Server.ServiceKind
  | .Subtitle => .SubtitleService
  | .Colour => .ColourService
  | .AudioPlayer => .PlaybackService
  | .Midi => .MidiService

/-- The error description built for a malformed text payload. -/
def malformedErrorDescr : ErrorDescription :=
  ⟨⟨strBytes "Unrecognized message: Malformed payload.", by decide⟩⟩

/-- Client::on_unregistered_subscriber_message: Register stores the
identity, fans UpdateClientData out to all four service actors and queues
Ack(Success); HeartbeatAck clears the watchdog flag; anything else queues
Nack(NotSubscribed) and errors. -/
def on_unregistered_subscriber_message (s : ClientState) (m : Server.ExchangeMessage) :
    StepOutput :=
  match m with
  | .Request (.Register cil) =>
    { state := { s with id := some cil },
      writes := [],
      serviceSends := [(.SubtitleService, .UpdateClientData cil),
        (.ColourService, .UpdateClientData cil),
        (.PlaybackService, .UpdateClientData cil),
        (.MidiService, .UpdateClientData cil)],
      outboxSends := [.Ack .Success],
      sequencerSends := [],
      terminated := false }
  | .HeartbeatAck =>
    { state := { s with watchdog_sent := false },
      writes := [], serviceSends := [], outboxSends := [], sequencerSends := [],
      terminated := false }
  | _ =>
    { state := s,
      writes := [], serviceSends := [],
      outboxSends := [.Nack .NotSubscribed],
      sequencerSends := [],
      terminated := true }

/-- Client::on_subscriber_message: subscription requests route to the named
actor, UpdateLocation notifies the subtitle and colour actors, NextScene
and RetriggerScene forward to the sequencer, HeartbeatAck clears the flag,
and every other message (a Register among them) queues Nack(Failed) and
errors. -/
def on_subscriber_message (s : ClientState) (m : Server.ExchangeMessage) : StepOutput :=
  match m with
  | .Request e =>
    match e with
    | .SuscribeToService sv cil =>
      { state := s, writes := [],
        serviceSends := [(svcOf sv, .AddTargetClient cil)],
        outboxSends := [], sequencerSends := [], terminated := false }
    | .UnsubscribeFromService sv cil =>
      { state := s, writes := [],
        serviceSends := [(svcOf sv, .RemoveTargetClient cil)],
        outboxSends := [], sequencerSends := [], terminated := false }
    | .UpdateLocation cil =>
      { state := s, writes := [],
        serviceSends := [(.SubtitleService, .UpdateClientData cil),
          (.ColourService, .UpdateClientData cil)],
        outboxSends := [], sequencerSends := [], terminated := false }
    | _ =>
      { state := s, writes := [], serviceSends := [],
        outboxSends := [.Nack .Failed], sequencerSends := [], terminated := true }
  | .HeartbeatAck =>
    { state := { s with watchdog_sent := false },
      writes := [], serviceSends := [], outboxSends := [], sequencerSends := [],
      terminated := false }
  | .NextScene =>
    { state := s, writes := [], serviceSends := [], outboxSends := [],
      sequencerSends := [.NextScene], terminated := false }
  | .RetriggerScene =>
    { state := s, writes := [], serviceSends := [], outboxSends := [],
      sequencerSends := [.RetriggerScene], terminated := false }
  | _ =>
    { state := s, writes := [], serviceSends := [],
      outboxSends := [.Nack .Failed], sequencerSends := [], terminated := true }

/-- The four service actors in the order the run loop notifies them. -/
def allServices : List Server.ServiceKind :=
  [.SubtitleService, .ColourService, .PlaybackService, .MidiService]

/-- One turn of Client::run: the watchdog timeout branch, the websocket
branch (handle_ws_message: wire latched on a well-formed frame while the
identity is unset, then the matching handler), and the mailbox branch that
writes the queued message in the current wire format. -/
def step (s : ClientState) (i : ClientInput) : StepOutput :=
  match i with
  | .timeout =>
    if s.watchdog_sent then
      { state := s, writes := [],
        serviceSends :=
          match s.id with
          | some cil => allServices.map (fun k => (k, .RemoveTargetClient cil))
          | none => [],
        outboxSends := [], sequencerSends := [], terminated := true }
    else
      { state := { s with watchdog_sent := true },
        writes := [(s.wire, .Heartbeat)],
        serviceSends := [], outboxSends := [], sequencerSends := [], terminated := false }
  | .text m =>
    match s.id with
    | none => on_unregistered_subscriber_message { s with wire := .Text } m
    | some _ => on_subscriber_message s m
  | .binary m =>
    match s.id with
    | none => on_unregistered_subscriber_message { s with wire := .Binary } m
    | some _ => on_subscriber_message s m
  | .textMalformed =>
    { state := s, writes := [], serviceSends := [],
      outboxSends := [.Error malformedErrorDescr], sequencerSends := [], terminated := true }
  | .binaryMalformed =>
    { state := s, writes := [], serviceSends := [], outboxSends := [],
      sequencerSends := [], terminated := true }
  | .close =>
    { state := s, writes := [], serviceSends := [], outboxSends := [],
      sequencerSends := [], terminated := true }
  | .unsupported =>
    { state := s, writes := [], serviceSends := [], outboxSends := [],
      sequencerSends := [], terminated := false }
  | .outbox m =>
    { state := s, writes := [(s.wire, m)], serviceSends := [], outboxSends := [],
      sequencerSends := [], terminated := false }

/-- The accumulated effects of a run of the handler loop. -/
structure RunOutput where
  state : ClientState
  writes : List (ClientWire × Server.ExchangeMessage)
  serviceSends : List (Server.ServiceKind × InternalMsg)
  terminated : Bool
deriving DecidableEq

/-- Client::run over a list of observed events, stopping when a turn
returns an error. -/
def run (s : ClientState) : List ClientInput → RunOutput
  | [] => { state := s, writes := [], serviceSends := [], terminated := false }
  | i :: rest =>
    let o := step s i
    if o.terminated then
      { state := o.state, writes := o.writes, serviceSends := o.serviceSends,
        terminated := true }
    else
      let r := run o.state rest
      { state := r.state, writes := o.writes ++ r.writes,
        serviceSends := o.serviceSends ++ r.serviceSends, terminated := r.terminated }

/-- The events whose handling clears the watchdog flag: a well-formed
frame carrying HeartbeatAck, in either registration state. -/
def ackInput : ClientInput → Bool
  | .text .HeartbeatAck => true
  | .binary .HeartbeatAck => true
  | _ => false

/-- The number of Heartbeat frames among some writes. -/
def countHB (ws : List (ClientWire × Server.ExchangeMessage)) : Nat :=
  (ws.filter (fun w => decide (w.2 = Server.ExchangeMessage.Heartbeat))).length

/-- The number of Heartbeat frames the handler has written since the last
HeartbeatAck it processed (or since the start), along a run. -/
def hbSince (s : ClientState) (c : Nat) : List ClientInput → Nat
  | [] => c
  | i :: rest =>
    let o := step s i
    let c2 := (if ackInput i then 0 else c) + countHB o.writes
    if o.terminated then c2 else hbSince o.state c2 rest

theorem step_hb (s : ClientState) (i : ClientInput)
    (hout : ∀ m, i = ClientInput.outbox m → m ≠ .Heartbeat) :
    countHB (step s i).writes = (if i = .timeout ∧ s.watchdog_sent = false then 1 else 0) ∧
    (step s i).state.watchdog_sent =
      (if ackInput i then false
       else if i = .timeout then true
       else s.watchdog_sent) := by
  cases i with
  | timeout =>
    by_cases hw : s.watchdog_sent <;>
      simp [step, countHB, ackInput, hw]
  | text m =>
    rcases hid : s.id with _ | cid
    · cases m with
      | Request e =>
        cases e <;> simp [step, hid, on_unregistered_subscriber_message, countHB, ackInput]
      | _ => simp [step, hid, on_unregistered_subscriber_message, countHB, ackInput]
    · cases m with
      | Request e =>
        cases e <;> simp [step, hid, on_subscriber_message, countHB, ackInput]
      | _ => simp [step, hid, on_subscriber_message, countHB, ackInput]
  | binary m =>
    rcases hid : s.id with _ | cid
    · cases m with
      | Request e =>
        cases e <;> simp [step, hid, on_unregistered_subscriber_message, countHB, ackInput]
      | _ => simp [step, hid, on_unregistered_subscriber_message, countHB, ackInput]
    · cases m with
      | Request e =>
        cases e <;> simp [step, hid, on_subscriber_message, countHB, ackInput]
      | _ => simp [step, hid, on_subscriber_message, countHB, ackInput]
  | outbox m =>
    have hm : m ≠ Server.ExchangeMessage.Heartbeat := hout m rfl
    simp [step, countHB, ackInput, hm]
  | _ => simp [step, countHB, ackInput]

theorem hb_invariant_aux : ∀ (t : List ClientInput) (s : ClientState) (c : Nat),
    (∀ m, ClientInput.outbox m ∈ t → m ≠ .Heartbeat) →
    (s.watchdog_sent = true ↔ c = 1) → c ≤ 1 →
    (((run s t).state.watchdog_sent = true) ↔ hbSince s c t = 1) ∧ hbSince s c t ≤ 1 := by
  intro t
  induction t with
  | nil =>
    intro s c _ hiff hle
    exact ⟨by simpa [run, hbSince] using hiff, by simpa [hbSince] using hle⟩
  | cons i rest ih =>
    intro s c hout hiff hle
    have houti : ∀ m, i = ClientInput.outbox m → m ≠ .Heartbeat := by
      intro m him
      exact hout m (by simp [him])
    have houtr : ∀ m, ClientInput.outbox m ∈ rest → m ≠ .Heartbeat := by
      intro m him
      exact hout m (by simp [him])
    obtain ⟨hcnt, hflag⟩ := step_hb s i houti
    set o := step s i with ho
    set c2 := (if ackInput i then 0 else c) + countHB o.writes with hc2
    have hiff2 : (o.state.watchdog_sent = true ↔ c2 = 1) ∧ c2 ≤ 1 := by
      rw [hc2, hcnt, hflag]
      by_cases ha : ackInput i
      · by_cases ht : i = ClientInput.timeout
        · rw [ht] at ha
          simp [ackInput] at ha
        · simp [ha, ht]
      · by_cases ht : i = ClientInput.timeout
        · by_cases hw : s.watchdog_sent
          · have hc1 : c = 1 := hiff.mp hw
            simp [ha, ht, hw, hc1, ackInput]
          · have hc0 : c = 0 := by
              rcases Nat.lt_or_ge c 1 with hlt | hge
              · omega
              · exfalso
                have : c = 1 := by omega
                exact absurd (hiff.mpr this) (by simpa using hw)
            simp [ha, ht, hw, hc0, ackInput]
        · by_cases hw : s.watchdog_sent
          · have hc1 : c = 1 := hiff.mp hw
            simp [ha, ht, hw, hc1]
          · have hc0 : c = 0 := by
              rcases Nat.lt_or_ge c 1 with hlt | hge
              · omega
              · exfalso
                have : c = 1 := by omega
                exact absurd (hiff.mpr this) (by simpa using hw)
            simp [ha, ht, hw, hc0, hle]
    by_cases hterm : o.terminated = true
    · have hrun : run s (i :: rest) =
          { state := o.state, writes := o.writes, serviceSends := o.serviceSends,
            terminated := true } := by
        simp [run, ← ho, hterm]
      have hsince : hbSince s c (i :: rest) = c2 := by
        simp [hbSince, ← ho, ← hc2, hterm]
      rw [hrun, hsince]
      exact ⟨hiff2.1, hiff2.2⟩
    · have hterm2 : o.terminated = false := by
        simpa using hterm
      have hrun : run s (i :: rest) =
          { state := (run o.state rest).state,
            writes := o.writes ++ (run o.state rest).writes,
            serviceSends := o.serviceSends ++ (run o.state rest).serviceSends,
            terminated := (run o.state rest).terminated } := by
        simp [run, ← ho, hterm2]
      have hsince : hbSince s c (i :: rest) = hbSince o.state c2 rest := by
        simp [hbSince, ← ho, ← hc2, hterm2]
      rw [hrun, hsince]
      exact ih o.state c2 houtr hiff2.1 hiff2.2

/-- C8: along any run of a session whose mailbox never carries a Heartbeat
(the service actors and the sequencer never send one), the pending flag is
true iff exactly one Heartbeat has been written since the last processed
HeartbeatAck or the session start; moreover a timeout with the flag clear
writes exactly one Heartbeat in the current wire and sets the flag, a
HeartbeatAck frame clears it, and a timeout with the flag set terminates
the session sending RemoveTargetClient for the stored identity to all four
service actors. -/
theorem heartbeat_watchdog_protocol :
    (∀ t : List ClientInput, (∀ m, ClientInput.outbox m ∈ t → m ≠ .Heartbeat) →
      (((run initialClient t).state.watchdog_sent = true) ↔
        hbSince initialClient 0 t = 1) ∧ hbSince initialClient 0 t ≤ 1) ∧
    (∀ s : ClientState, s.watchdog_sent = false →
      step s .timeout =
        { state := { s with watchdog_sent := true },
          writes := [(s.wire, .Heartbeat)],
          serviceSends := [], outboxSends := [], sequencerSends := [],
          terminated := false }) ∧
    (∀ s : ClientState,
      (step s (.text .HeartbeatAck)).state.watchdog_sent = false ∧
      (step s (.binary .HeartbeatAck)).state.watchdog_sent = false) ∧
    (∀ (s : ClientState) (cil : ClientIdAndLocation),
      s.watchdog_sent = true → s.id = some cil →
      step s .timeout =
        { state := s, writes := [],
          serviceSends := [(.SubtitleService, .RemoveTargetClient cil),
            (.ColourService, .RemoveTargetClient cil),
            (.PlaybackService, .RemoveTargetClient cil),
            (.MidiService, .RemoveTargetClient cil)],
          outboxSends := [], sequencerSends := [], terminated := true }) := by
  refine ⟨?_, ?_, ?_, ?_⟩
  · intro t hout
    exact hb_invariant_aux t initialClient 0 hout (by simp [initialClient]) (by omega)
  · intro s hw
    simp [step, hw]
  · intro s
    constructor <;> rcases hid : s.id with _ | cid <;>
      simp [step, hid, on_unregistered_subscriber_message, on_subscriber_message]
  · intro s cil hw hid
    simp [step, hw, hid, allServices]

/-- A concrete client identity for witnesses. -/
def cilA : ClientIdAndLocation := { id := uuidA, location := none }

/-- A concrete registered handler state for witnesses. -/
def regStateA : ClientState := { id := some cilA, watchdog_sent := true, wire := .Text }

/-- Witness for C8: a concrete run (timeout, ack, timeout) obeys the flag
invariant; the pending timeout at a concrete registered state terminates
with the four RemoveTargetClient sends. -/
theorem heartbeat_watchdog_protocol_witness :
    ((((run initialClient [.timeout, .text .HeartbeatAck, .timeout]).state.watchdog_sent
        = true) ↔
      hbSince initialClient 0 [.timeout, .text .HeartbeatAck, .timeout] = 1) ∧
      hbSince initialClient 0 [.timeout, .text .HeartbeatAck, .timeout] ≤ 1) ∧
    step regStateA .timeout =
      { state := regStateA,
        writes := [],
        serviceSends := [(.SubtitleService, .RemoveTargetClient cilA),
          (.ColourService, .RemoveTargetClient cilA),
          (.PlaybackService, .RemoveTargetClient cilA),
          (.MidiService, .RemoveTargetClient cilA)],
        outboxSends := [], sequencerSends := [], terminated := true } :=
  ⟨heartbeat_watchdog_protocol.1 [.timeout, .text .HeartbeatAck, .timeout]
      (by intro m hm; simp at hm),
   heartbeat_watchdog_protocol.2.2.2 regStateA cilA rfl rfl⟩

/-- A second concrete client identity for counterexamples. -/
def cilB : ClientIdAndLocation := { id := uuidB, location := some .Center }

/-- C6 counterexample: in a registered state a Request(Register) falls into
the unsupported-event arm: the identity is NOT replaced, no
UpdateClientData goes to any actor, Nack(Failed) is queued and the handler
errors, contrary to the claimed re-registration. -/
theorem registered_register_is_rejected_counterexample :
    step { id := some cilA, watchdog_sent := false, wire := .Text }
        (.text (.Request (.Register cilB))) =
      { state := { id := some cilA, watchdog_sent := false, wire := .Text },
        writes := [], serviceSends := [],
        outboxSends := [.Nack .Failed], sequencerSends := [], terminated := true } := by
  rfl

/-- C6 as the code behaves: a Register while registered is rejected with
Nack(Failed) and an error that ends the session, leaving the identity and
the actors untouched; the identity refresh with the UpdateClientData
fan-out happens only while the handler holds no identity. -/
theorem register_when_registered_rejected_refresh_only_unregistered :
    (∀ (s : ClientState) (cil cil2 : ClientIdAndLocation), s.id = some cil →
      step s (.text (.Request (.Register cil2))) =
        { state := s, writes := [], serviceSends := [],
          outboxSends := [.Nack .Failed], sequencerSends := [], terminated := true } ∧
      step s (.binary (.Request (.Register cil2))) =
        { state := s, writes := [], serviceSends := [],
          outboxSends := [.Nack .Failed], sequencerSends := [], terminated := true }) ∧
    (∀ (s : ClientState) (cil2 : ClientIdAndLocation), s.id = none →
      step s (.text (.Request (.Register cil2))) =
        { state := { s with id := some cil2, wire := .Text },
          writes := [],
          serviceSends := [(.SubtitleService, .UpdateClientData cil2),
            (.ColourService, .UpdateClientData cil2),
            (.PlaybackService, .UpdateClientData cil2),
            (.MidiService, .UpdateClientData cil2)],
          outboxSends := [.Ack .Success], sequencerSends := [], terminated := false } ∧
      step s (.binary (.Request (.Register cil2))) =
        { state := { s with id := some cil2, wire := .Binary },
          writes := [],
          serviceSends := [(.SubtitleService, .UpdateClientData cil2),
            (.ColourService, .UpdateClientData cil2),
            (.PlaybackService, .UpdateClientData cil2),
            (.MidiService, .UpdateClientData cil2)],
          outboxSends := [.Ack .Success], sequencerSends := [], terminated := false }) := by
  constructor
  · intro s cil cil2 hid
    constructor <;> simp [step, hid, on_subscriber_message]
  · intro s cil2 hid
    constructor <;> simp [step, hid, on_unregistered_subscriber_message]

/-- Witness for C6 (amended): the rejection at a concrete registered state
and the refresh at the initial state. -/
theorem register_when_registered_rejected_witness :
    step regStateA (.text (.Request (.Register cilB))) =
      { state := regStateA, writes := [], serviceSends := [],
        outboxSends := [.Nack .Failed], sequencerSends := [], terminated := true } ∧
    step initialClient (.text (.Request (.Register cilB))) =
      { state := { initialClient with id := some cilB, wire := .Text },
        writes := [],
        serviceSends := [(.SubtitleService, .UpdateClientData cilB),
          (.ColourService, .UpdateClientData cilB),
          (.PlaybackService, .UpdateClientData cilB),
          (.MidiService, .UpdateClientData cilB)],
        outboxSends := [.Ack .Success], sequencerSends := [], terminated := false } :=
  ⟨(register_when_registered_rejected_refresh_only_unregistered.1 regStateA cilA cilB rfl).1,
   (register_when_registered_rejected_refresh_only_unregistered.2 initialClient cilB rfl).1⟩

/-- A session whose only inbound frames are text, preceded by a watchdog
timeout. -/
def tr9a : List ClientInput := [.timeout, .text .HeartbeatAck]

/-- A session whose first well-formed inbound frame is text and whose
second is a binary registration, followed by the queued Ack delivery. -/
def tr9b : List ClientInput :=
  [.text .HeartbeatAck, .binary (.Request (.Register cilA)), .outbox (.Ack .Success)]

/-- C9 counterexample: on tr9a no binary frame ever arrives, the first
well-formed inbound frame is text, yet the server has already written a
Binary heartbeat; on tr9b the first well-formed inbound frame is text yet
the later Ack is written as a Binary frame, because the wire re-latches on
every well-formed frame processed while unregistered. -/
theorem wire_lock_counterexample :
    (∀ m : Server.ExchangeMessage, ClientInput.binary m ∉ tr9a) ∧
    (run initialClient tr9a).writes = [(ClientWire.Binary, .Heartbeat)] ∧
    tr9b.head? = some (.text .HeartbeatAck) ∧
    (run initialClient tr9b).writes = [(ClientWire.Binary, .Ack .Success)] := by
  refine ⟨?_, rfl, rfl, rfl⟩
  intro m
  simp [tr9a]

theorem step_registered_preserves (s : ClientState) (i : ClientInput)
    (cil : ClientIdAndLocation) (hid : s.id = some cil) :
    (step s i).state.id = some cil ∧ (step s i).state.wire = s.wire := by
  cases i with
  | timeout => by_cases hw : s.watchdog_sent <;> simp [step, hw, hid]
  | text m =>
    cases m with
    | Request e => cases e <;> simp [step, hid, on_subscriber_message]
    | _ => simp [step, hid, on_subscriber_message]
  | binary m =>
    cases m with
    | Request e => cases e <;> simp [step, hid, on_subscriber_message]
    | _ => simp [step, hid, on_subscriber_message]
  | _ => simp [step, hid]

theorem step_writes_current_wire (s : ClientState) (i : ClientInput) :
    ∀ w ∈ (step s i).writes, w.1 = s.wire := by
  cases i with
  | timeout => by_cases hw : s.watchdog_sent <;> simp [step, hw]
  | text m =>
    rcases hid : s.id with _ | cid
    · cases m with
      | Request e => cases e <;> simp [step, hid, on_unregistered_subscriber_message]
      | _ => simp [step, hid, on_unregistered_subscriber_message]
    · cases m with
      | Request e => cases e <;> simp [step, hid, on_subscriber_message]
      | _ => simp [step, hid, on_subscriber_message]
  | binary m =>
    rcases hid : s.id with _ | cid
    · cases m with
      | Request e => cases e <;> simp [step, hid, on_unregistered_subscriber_message]
      | _ => simp [step, hid, on_unregistered_subscriber_message]
    · cases m with
      | Request e => cases e <;> simp [step, hid, on_subscriber_message]
      | _ => simp [step, hid, on_subscriber_message]
  | _ => simp [step]

theorem run_registered_wire_locked : ∀ (t : List ClientInput) (s : ClientState)
    (cil : ClientIdAndLocation), s.id = some cil →
    (run s t).state.wire = s.wire ∧ ∀ w ∈ (run s t).writes, w.1 = s.wire := by
  intro t
  induction t with
  | nil => intro s cil _; simp [run]
  | cons i rest ih =>
    intro s cil hid
    obtain ⟨hid2, hwire2⟩ := step_registered_preserves s i cil hid
    have hws := step_writes_current_wire s i
    by_cases hterm : (step s i).terminated = true
    · rw [run]
      simp only [hterm, if_true]
      exact ⟨hwire2, hws⟩
    · have hterm2 : (step s i).terminated = false := by simpa using hterm
      rw [run]
      simp only [hterm2, Bool.false_eq_true, if_false]
      obtain ⟨hw3, hws3⟩ := ih (step s i).state cil hid2
      refine ⟨by rw [hw3, hwire2], ?_⟩
      intro w hw
      rcases List.mem_append.mp hw with hmem | hmem
      · exact hws w hmem
      · rw [hws3 w hmem, hwire2]

/-- C9 as the code behaves: every frame the server writes uses the wire
latched at the moment of the write; a well-formed frame processed while
unregistered re-latches the wire to its own format (Binary before any,
from Client::new); and from the first successful registration on the wire
never changes, so all later writes share one format. -/
theorem wire_relatch_until_registered_then_locked :
    (∀ (s : ClientState) (i : ClientInput), ∀ w ∈ (step s i).writes, w.1 = s.wire) ∧
    (∀ (s : ClientState) (m : Server.ExchangeMessage), s.id = none →
      (step s (.text m)).state.wire = .Text ∧ (step s (.binary m)).state.wire = .Binary) ∧
    (∀ (t : List ClientInput) (s : ClientState) (cil : ClientIdAndLocation),
      s.id = some cil →
      (run s t).state.wire = s.wire ∧ ∀ w ∈ (run s t).writes, w.1 = s.wire) ∧
    initialClient.wire = .Binary := by
  refine ⟨step_writes_current_wire, ?_, ?_, rfl⟩
  · intro s m hid
    constructor <;>
      cases m with
      | Request e => cases e <;> simp [step, hid, on_unregistered_subscriber_message]
      | _ => simp [step, hid, on_unregistered_subscriber_message]
  · intro t s cil hid
    exact run_registered_wire_locked t s cil hid

/-- Witness for C9 (amended): from a concrete registered Text-wire state, a
run with a timeout, an ack and an outbox delivery only ever writes Text
frames. -/
theorem wire_relatch_until_registered_then_locked_witness :
    (run { id := some cilA, watchdog_sent := false, wire := .Text }
        [.timeout, .text .HeartbeatAck, .outbox (.Ack .Success)]).state.wire = .Text ∧
    ∀ w ∈ (run { id := some cilA, watchdog_sent := false, wire := .Text }
        [.timeout, .text .HeartbeatAck, .outbox (.Ack .Success)]).writes,
      w.1 = ClientWire.Text :=
  wire_relatch_until_registered_then_locked.2.2.1
    [.timeout, .text .HeartbeatAck, .outbox (.Ack .Success)]
    { id := some cilA, watchdog_sent := false, wire := .Text } cilA rfl

/-- C5 (as the code behaves): UpdateClientData on an existing entry
replaces only the stored mailbox and acknowledges on the new one; the
location carried in the message is discarded and the stored location
stays, here Left although the message said Right. -/
theorem update_client_data_keeps_stored_location :
    Server.update_target_client [(uuidA, { sender := 1, location := some .Left })]
        { id := uuidA, location := some .Right } 2 =
      { table := [(uuidA, { sender := 2, location := some .Left })],
        sends := [(2, .Ack .UpdatedSubscription)],
        result := .ok () } := by
  simp [Server.update_target_client, Server.lookupEntry]

/-!
Sequencer: src/server/src/sequencer/mod.rs.  A NextScene message pops the
front step, records it as last played, and runs the inner while loop: as
long as the current step has a duration it dispatches the step, sleeps,
and pops the next step if one exists — when the queue is already empty it
only logs and leaves the current step in place, so the loop condition
still holds.  The sleeps are the suspension points; the fuel argument
counts loop iterations.
-/

/-- SequenceStep from sequencer/sequence_parser.rs (durations as whole
numbers of time units). -/
structure SequenceStep where
  name : List Nat
  action : Action
  target_location : Option RelativeLocation
  duration : Option Nat
deriving DecidableEq

/-- Sequencer::dispatch_action_to_perform: route the action of the step to
the subtitle, colour or playback actor with the target location. -/
def dispatch_action_to_perform (sequence_step : SequenceStep) :
    Server.ServiceKind × Action × Option RelativeLocation :=
  match sequence_step.action with
  | .ShowNewSubtitles _ =>
    (.SubtitleService, sequence_step.action, sequence_step.target_location)
  | .ChangeColour _ =>
    (.ColourService, sequence_step.action, sequence_step.target_location)
  | .PlayAudio _ =>
    (.PlaybackService, sequence_step.action, sequence_step.target_location)

/-- How the inner while loop of the NextScene arm ends: exited with the
no-duration step still to dispatch, or still running when the fuel ran
out. -/
inductive LoopOut
  | exited (final : SequenceStep) (queue : List SequenceStep)
  | running (cur : SequenceStep) (queue : List SequenceStep)
deriving DecidableEq

/-- The while loop of the NextScene arm: while the current step has a
duration, dispatch it, sleep, and replace it by the popped next step when
the queue is nonempty — when the queue is empty the source only logs, so
the same step is dispatched again on the next iteration. -/
def autoAdvance : Nat → SequenceStep → List SequenceStep →
    List (Server.ServiceKind × Action × Option RelativeLocation) × LoopOut
  | 0, sequence_step, sequence => ([], .running sequence_step sequence)
  | fuel + 1, sequence_step, sequence =>
    match sequence_step.duration with
    | none => ([], .exited sequence_step sequence)
    | some _ =>
      let d := dispatch_action_to_perform sequence_step
      match sequence with
      | next :: rest =>
        let r := autoAdvance fuel next rest
        (d :: r.1, r.2)
      | [] =>
        let r := autoAdvance fuel sequence_step []
        (d :: r.1, r.2)

/-- The sequencer state: the remaining queue and the last step played. -/
structure SequencerState where
  sequence : List SequenceStep
  last_sequence_step_played : Option SequenceStep
deriving DecidableEq

/-- The NextScene arm of Sequencer::run: empty queue only logs; otherwise
pop, record as last played, run the while loop, and dispatch the final
no-duration step when the loop exits.  The last Bool is whether the arm
finished (false when the fuel ran out inside the loop). -/
def onNextScene (fuel : Nat) (st : SequencerState) :
    SequencerState × List (Server.ServiceKind × Action × Option RelativeLocation) × Bool :=
  match st.sequence with
  | [] => (st, [], true)
  | sequence_step :: rest =>
    match autoAdvance fuel sequence_step rest with
    | (ds, .exited final queue2) =>
      ({ sequence := queue2, last_sequence_step_played := some sequence_step },
        ds ++ [dispatch_action_to_perform final], true)
    | (ds, .running _ queue2) =>
      ({ sequence := queue2, last_sequence_step_played := some sequence_step }, ds, false)

/-- A concrete timed colour step. -/
def stepTimed : SequenceStep :=
  { name := [], action := .ChangeColour ⟨0, 0, 255⟩, target_location := none,
    duration := some 1 }

/-- C7 (as the code behaves): an empty queue dispatches nothing and idles;
but when the queue runs empty while the current step still has a duration
the loop never exits — each further iteration re-dispatches that same
step — so a sequence whose last step is timed makes NextScene dispatch it
once per iteration forever instead of stopping. -/
theorem sequencer_empty_queue_with_timed_step_loops_forever :
    (∀ (fuel : Nat) (st : SequencerState), st.sequence = [] →
      onNextScene fuel st = (st, [], true)) ∧
    (∀ (fuel : Nat) (stp : SequenceStep) (d : Nat), stp.duration = some d →
      autoAdvance fuel stp [] =
        (List.replicate fuel (dispatch_action_to_perform stp), .running stp [])) ∧
    (∀ fuel : Nat,
      onNextScene fuel { sequence := [stepTimed], last_sequence_step_played := none } =
        ({ sequence := [], last_sequence_step_played := some stepTimed },
          List.replicate fuel (dispatch_action_to_perform stepTimed), false)) := by
  have hloop : ∀ (fuel : Nat) (stp : SequenceStep) (d : Nat), stp.duration = some d →
      autoAdvance fuel stp [] =
        (List.replicate fuel (dispatch_action_to_perform stp), .running stp []) := by
    intro fuel
    induction fuel with
    | zero => intro stp d hd; simp [autoAdvance]
    | succ n ih =>
      intro stp d hd
      simp [autoAdvance, hd, ih stp d hd, List.replicate_succ]
  refine ⟨?_, hloop, ?_⟩
  · intro fuel st hseq
    cases st
    simp only at hseq
    simp [onNextScene, hseq]
  · intro fuel
    simp [onNextScene, hloop fuel stepTimed 1 rfl]

/-- Witness for C7: with fuel for three iterations, the single timed step
of the queue is dispatched three times and the run has not stopped. -/
theorem sequencer_empty_queue_with_timed_step_loops_forever_witness :
    autoAdvance 3 stepTimed [] =
      (List.replicate 3 (dispatch_action_to_perform stepTimed), .running stepTimed []) ∧
    onNextScene 3 { sequence := [stepTimed], last_sequence_step_played := none } =
      ({ sequence := [], last_sequence_step_played := some stepTimed },
        List.replicate 3 (dispatch_action_to_perform stepTimed), false) :=
  ⟨sequencer_empty_queue_with_timed_step_loops_forever.2.1 3 stepTimed 1 rfl,
   sequencer_empty_queue_with_timed_step_loops_forever.2.2 3⟩

/-!
Embedded client WebSocket framing: src/rp-client/src/websocket_handler.rs.
The TCP socket is modelled as a byte stream consumed in order; a read of n
bytes takes the next n bytes of the stream.
-/

/-- WsError from websocket_handler.rs. -/
inductive WsError
  | Connect
  | Tcp
  | HandshakeFailed
  | InvalidResponse
  | FrameTooLarge
  | Utf8
deriving DecidableEq, Repr

/-- Mask a payload byte-wise with the four-byte mask, byte i with
mask[i mod 4]. -/
def maskBytes (mask payload : List Nat) : List Nat :=
  payload.enum.map (fun p => p.2 ^^^ mask.getD (p.1 % 4) 0)

/-- WebSocket::send_bytes: refuse payloads over 125 bytes, else emit the
FIN+binary header byte, the MASK bit with the 7-bit length, the four mask
bytes, and the masked payload. -/
def send_bytes (mask payload : List Nat) : Except WsError (List Nat) :=
  if payload.length > 125 then .error .FrameTooLarge
  else
    .ok ([0x80 ||| 0x02, 0x80 ||| payload.length] ++ mask ++ maskBytes mask payload)

/-- The tail of WebSocket::recv_message after the length field is known:
read the mask when the MASK bit was set, refuse payloads beyond the buffer
capacity, read the payload and unmask it in place when masked. -/
def recv_payload (cap len : Nat) (masked : Bool) (s : List Nat) :
    Except WsError (List Nat × List Nat) :=
  if masked then
    match readBytesN 4 s with
    | some (mask, s2) =>
      if len > cap then .error .FrameTooLarge
      else
        match readBytesN len s2 with
        | some (payload, s3) => .ok (maskBytes mask payload, s3)
        | none => .error .InvalidResponse
    | none => .error .InvalidResponse
  else
    if len > cap then .error .FrameTooLarge
    else
      match readBytesN len s with
      | some (payload, s2) => .ok (payload, s2)
      | none => .error .InvalidResponse

/-- WebSocket::recv_message: read the two header bytes, require FIN and the
binary opcode, read a 16-bit extended length when the 7-bit field is 126,
refuse 64-bit lengths (127), then read mask and payload. -/
def recv_message (cap : Nat) (stream : List Nat) : Except WsError (List Nat × List Nat) :=
  match stream with
  | b0 :: b1 :: s =>
    if (b0 &&& 0x0F) = 2 ∧ (b0 &&& 0x80) ≠ 0 then
      if (b1 &&& 0x7F) = 126 then
        match s with
        | e1 :: e2 :: s2 => recv_payload cap (e1 * 256 + e2) (decide ((b1 &&& 0x80) ≠ 0)) s2
        | _ => .error .InvalidResponse
      else if (b1 &&& 0x7F) = 127 then .error .FrameTooLarge
      else recv_payload cap (b1 &&& 0x7F) (decide ((b1 &&& 0x80) ≠ 0)) s
    else .error .InvalidResponse
  | _ => .error .InvalidResponse

theorem maskBytes_involutive (mask : List Nat) (payload : List Nat) :
    maskBytes mask (maskBytes mask payload) = payload := by
  have haux : ∀ (l : List Nat) (n : Nat),
      ((l.enumFrom n).map (fun p => p.2 ^^^ mask.getD (p.1 % 4) 0)).enumFrom n =
        (l.enumFrom n).map (fun p => (p.1, p.2 ^^^ mask.getD (p.1 % 4) 0)) := by
    intro l
    induction l with
    | nil => intro n; rfl
    | cons b t ih =>
      intro n
      simp only [List.enumFrom, List.map_cons]
      rw [ih (n + 1)]
  unfold maskBytes
  rw [show (payload.enum.map (fun p => p.2 ^^^ mask.getD (p.1 % 4) 0)).enum =
      (payload.enumFrom 0).map (fun p => (p.1, p.2 ^^^ mask.getD (p.1 % 4) 0)) from
    haux payload 0]
  rw [List.map_map]
  have hcancel : ∀ p : Nat × Nat,
      ((fun p : Nat × Nat => p.2 ^^^ mask.getD (p.1 % 4) 0) ∘
        (fun p : Nat × Nat => (p.1, p.2 ^^^ mask.getD (p.1 % 4) 0))) p = p.2 := by
    intro p
    simp [Function.comp, Nat.xor_cancel_right]
  calc (payload.enumFrom 0).map _ = (payload.enumFrom 0).map Prod.snd := by
        exact List.map_congr_left (fun p _ => hcancel p)
    _ = payload := by
        rw [show (payload.enumFrom 0) = payload.enum from rfl, List.enum_map_snd]

theorem maskBytes_length (mask payload : List Nat) :
    (maskBytes mask payload).length = payload.length := by
  simp [maskBytes]

/-- C10: for payloads of at most 125 bytes, a 4-byte mask and a receive
buffer at least as large as the payload, parsing the byte stream produced
by send_bytes succeeds and yields exactly the payload (unmasking undoes
masking); longer payloads are refused with FrameTooLarge before any byte
is written. -/
theorem send_bytes_recv_message_roundtrip
    (mask payload : List Nat) (cap : Nat) (rest : List Nat)
    (hlen : payload.length ≤ 125) (hmask : mask.length = 4)
    (hcap : payload.length ≤ cap) :
    send_bytes mask payload =
      .ok ([0x80 ||| 0x02, 0x80 ||| payload.length] ++ mask ++ maskBytes mask payload) ∧
    recv_message cap
        (([0x80 ||| 0x02, 0x80 ||| payload.length] ++ mask ++ maskBytes mask payload) ++ rest) =
      .ok (payload, rest) ∧
    (∀ p : List Nat, 125 < p.length → send_bytes mask p = .error .FrameTooLarge) := by
  have hlow : ∀ n : Nat, n < 128 → (128 ||| n) &&& 127 = n := by decide
  have hhigh : ∀ n : Nat, n < 128 → ((128 ||| n) &&& 128) ≠ 0 := by decide
  have hlen128 : payload.length < 128 := by omega
  have h7 : ((0x80 ||| payload.length) &&& 0x7F) = payload.length := hlow _ hlen128
  have h8 : (((0x80 ||| payload.length)) &&& 0x80) ≠ 0 := hhigh _ hlen128
  refine ⟨by simp [send_bytes, Nat.not_lt.mpr hlen], ?_, ?_⟩
  · have hmm2 : readBytesN 4 (mask ++ (maskBytes mask payload ++ rest)) =
        some (mask, maskBytes mask payload ++ rest) := by
      rw [show (4 : Nat) = mask.length from hmask.symm, readBytesN_append]
    have hpl : readBytesN payload.length (maskBytes mask payload ++ rest) =
        some (maskBytes mask payload, rest) := by
      rw [show payload.length = (maskBytes mask payload).length from
          (maskBytes_length mask payload).symm, readBytesN_append]
    have hd : decide (((0x80 ||| payload.length) &&& 0x80) ≠ 0) = true := by
      simpa using h8
    have hc1 : ((0x80 ||| 0x02 : Nat) &&& 0x0F) = 2 := by decide
    have hc2 : ((0x80 ||| 0x02 : Nat) &&& 0x80) ≠ 0 := by decide
    have hc3 : ((130 : Nat) &&& 15) = 2 := by decide
    have hc4 : ((130 : Nat) &&& 128) ≠ 0 := by decide
    have hn126 : payload.length ≠ 126 := by omega
    have hn127 : payload.length ≠ 127 := by omega
    have hnc : ¬(payload.length > cap) := by omega
    simp [recv_message, recv_payload, List.cons_append, List.append_assoc, h7, hd,
      hc1, hc2, hc3, hc4, hn126, hn127, hnc, hmm2, hpl, maskBytes_involutive]
  · intro p hp
    simp [send_bytes, hp]

/-- Witness for C10: a three-byte payload round-trips through framing and
parsing at a concrete mask; a 126-byte payload is refused. -/
theorem send_bytes_recv_message_roundtrip_witness :
    send_bytes [5, 6, 7, 8] [1, 2, 3] =
      .ok ([0x80 ||| 0x02, 0x80 ||| 3] ++ [5, 6, 7, 8] ++ maskBytes [5, 6, 7, 8] [1, 2, 3]) ∧
    recv_message 3 (([0x80 ||| 0x02, 0x80 ||| 3] ++ [5, 6, 7, 8] ++
        maskBytes [5, 6, 7, 8] [1, 2, 3]) ++ [255]) = .ok ([1, 2, 3], [255]) ∧
    send_bytes [5, 6, 7, 8] (List.replicate 126 0) = .error .FrameTooLarge := by
  have h := send_bytes_recv_message_roundtrip [5, 6, 7, 8] [1, 2, 3] 3 [255]
    (by decide) (by decide) (by decide)
  exact ⟨h.1, h.2.1, h.2.2 (List.replicate 126 0) (by simp)⟩

end Lamarrs
